import Mathlib

/-!
Verification of the cloud-provider configuration observer from
`pkg/operator/configobserver/cloudprovider/observe_cloudprovider.go`
(vendored openshift/library-go, as shipped in cluster-kube-apiserver-operator).

The observer reads the cluster `Infrastructure` and `FeatureGate` resources
through injected listers, derives a cloud-provider name and a config-map
reference, writes them into a generic nested string-keyed map under two
caller-configured key paths, triggers a config-map sync, and finally prunes
the result to the two key paths (via a deferred step that runs on every
return).

The nested-map helpers (`SetNestedStringSlice`, `NestedStringSlice`,
`NestedFieldNoCopy` from k8s.io/apimachinery, and `Pruned` from
library-go's configobserver package) and the external-provider capability
evaluator (`cloudprovider.IsCloudProviderExternal`) are called by the file
under analysis but their sources are not part of the excerpt; they are
modelled from the specification, as noted on each definition.
-/

set_option autoImplicit false

namespace CloudProviderObserve

/-- A value of a generic Kubernetes `map[string]interface{}` configuration
tree, restricted to the shapes this observer manipulates: string slices,
nested maps, and an opaque constructor for any other dynamic value that a
caller-supplied prior configuration may contain. -/
inductive UValue where
  | vStrings : List String → UValue
  | vMap : List (String × UValue) → UValue
  | vOther : String → UValue
deriving Repr

mutual

/-- Decidable equality of configuration values. -/
def UValue.deq : (a b : UValue) → Decidable (a = b)
  | .vStrings s, .vStrings t =>
    match decEq s t with
    | isTrue h => isTrue (by rw [h])
    | isFalse h => isFalse (fun hh => h (by injection hh))
  | .vStrings _, .vMap _ => isFalse (fun h => UValue.noConfusion h)
  | .vStrings _, .vOther _ => isFalse (fun h => UValue.noConfusion h)
  | .vMap _, .vStrings _ => isFalse (fun h => UValue.noConfusion h)
  | .vMap m, .vMap n =>
    match UValue.deqList m n with
    | isTrue h => isTrue (by rw [h])
    | isFalse h => isFalse (fun hh => h (by injection hh))
  | .vMap _, .vOther _ => isFalse (fun h => UValue.noConfusion h)
  | .vOther _, .vStrings _ => isFalse (fun h => UValue.noConfusion h)
  | .vOther _, .vMap _ => isFalse (fun h => UValue.noConfusion h)
  | .vOther s, .vOther t =>
    match decEq s t with
    | isTrue h => isTrue (by rw [h])
    | isFalse h => isFalse (fun hh => h (by injection hh))

/-- Decidable equality of configuration maps. -/
def UValue.deqList : (a b : List (String × UValue)) → Decidable (a = b)
  | [], [] => isTrue rfl
  | [], _ :: _ => isFalse (fun h => List.noConfusion h)
  | _ :: _, [] => isFalse (fun h => List.noConfusion h)
  | (k, v) :: r, (k2, v2) :: r2 =>
    match decEq k k2, UValue.deq v v2, UValue.deqList r r2 with
    | isTrue h1, isTrue h2, isTrue h3 => isTrue (by rw [h1, h2, h3])
    | isFalse h1, _, _ => isFalse (fun hh => by
        injection hh with hp hr
        exact h1 (congrArg Prod.fst hp))
    | _, isFalse h2, _ => isFalse (fun hh => by
        injection hh with hp hr
        exact h2 (congrArg Prod.snd hp))
    | _, _, isFalse h3 => isFalse (fun hh => by
        injection hh with hp hr
        exact h3 hr)

end

instance : DecidableEq UValue := UValue.deq

/-- A `map[string]interface{}`, represented as an association list with
first-occurrence lookup semantics. -/
abbrev UMap := List (String × UValue)

/-- First-occurrence association-list lookup (Go map indexing). -/
def ulookup (k : String) : UMap → Option UValue
  | [] => none
  | (k0, v) :: rest => if k0 = k then some v else ulookup k rest

/-- Go map assignment `m[k] = v`: replace the first binding of `k`, or append. -/
def insertKV : UMap → String → UValue → UMap
  | [], k, v => [(k, v)]
  | (k0, v0) :: rest, k, v =>
    if k0 = k then (k, v) :: rest else (k0, v0) :: insertKV rest k v

/-- Walk a field path through a value, descending only through nested maps
(`NestedFieldNoCopy`-style traversal, with lookup failure and type mismatch
both collapsed to `none`). -/
def getV : UValue → List String → Option UValue
  | v, [] => some v
  | .vMap m, k :: rest =>
    match ulookup k m with
    | some v => getV v rest
    | none => none
  | .vStrings _, _ :: _ => none
  | .vOther _, _ :: _ => none

/-- Value of `m` at field path `p`. -/
def getNested (m : UMap) (p : List String) : Option UValue :=
  getV (.vMap m) p

/-- Continue a walk from an optional value. -/
def getVO : Option UValue → List String → Option UValue
  | none, _ => none
  | some v, p => getV v p

/-- Modelled from the spec: `unstructured.SetNestedStringSlice` /
`setNestedFieldNoCopy` (k8s.io/apimachinery, not part of the excerpt).
Writes `v` at field path `p`, creating intermediate maps for absent keys and
failing when an existing intermediate value is not a map. The Go helper has
no defined behaviour for an empty path; the model reports it as an error. -/
def setNestedField (m : UMap) (v : UValue) : List String → Except String UMap
  | [] => .error "no fields to set"
  | [k] => .ok (insertKV m k v)
  | k :: k1 :: rest =>
    match ulookup k m with
    | some (.vMap m0) =>
      match setNestedField m0 v (k1 :: rest) with
      | .ok m1 => .ok (insertKV m k (.vMap m1))
      | .error e => .error e
    | some (.vStrings _) => .error (k ++ " is not a map")
    | some (.vOther _) => .error (k ++ " is not a map")
    | none =>
      match setNestedField [] v (k1 :: rest) with
      | .ok m1 => .ok (insertKV m k (.vMap m1))
      | .error e => .error e

/-- Result of `unstructured.NestedStringSlice`: the value was absent, found
as a string slice, or the lookup failed (non-map intermediate value or a
value of the wrong type at the end of the path). -/
inductive NSS where
  | absent
  | found : List String → NSS
  | fail : String → NSS
deriving DecidableEq, Repr

/-- Modelled from the spec: `unstructured.NestedStringSlice`
(k8s.io/apimachinery, not part of the excerpt): walk the path, reporting a
type error at a non-map intermediate value or a non-string-slice final
value, and absence when a key is missing. -/
def nssV : UValue → List String → NSS
  | .vStrings ss, [] => .found ss
  | .vMap _, [] => .fail "value is not a string slice"
  | .vOther _, [] => .fail "value is not a string slice"
  | .vMap m, k :: rest =>
    match ulookup k m with
    | some v => nssV v rest
    | none => .absent
  | .vStrings _, _ :: _ => .fail "value is not a map"
  | .vOther _, _ :: _ => .fail "value is not a map"

/-- `NestedStringSlice` applied to a map at a path. -/
def nestedStringSlice (m : UMap) (p : List String) : NSS :=
  nssV (.vMap m) p

/-- The string slice stored at path `p` of `m`, if any. -/
def getStringsAt (m : UMap) (p : List String) : Option (List String) :=
  match getNested m p with
  | some (.vStrings ss) => some ss
  | _ => none

/-- One step of `configobserver.Pruned`: copy the value of `m` at path `p`
into the accumulator, skipping the path when the value is absent or the
write fails. -/
def prunedStep (m : UMap) (acc : UMap) (p : List String) : UMap :=
  match getNested m p with
  | none => acc
  | some v =>
    match setNestedField acc v p with
    | .ok acc1 => acc1
    | .error _ => acc

/-- Modelled from the spec: `configobserver.Pruned ret p1 p2` (library-go
configobserver package, not part of the excerpt): build a fresh map holding
only the values of `m` at the two given key paths, in argument order. -/
def Pruned (m : UMap) (p1 p2 : List String) : UMap :=
  prunedStep m (prunedStep m [] p1) p2

/-! ## The observed program -/

/-- An event sent to the operator event recorder. -/
structure Event where
  isWarning : Bool
  reason : String
  message : String
deriving DecidableEq, Repr

/-- Outcome of a lister `Get`: the object, a not-found error, or any other
lookup error. -/
inductive GetResult (α : Type) where
  | found : α → GetResult α
  | notFound
  | err : String → GetResult α
deriving DecidableEq, Repr

/-- `resourcesynccontroller.ResourceLocation`. -/
structure ResourceLocation where
  ns : String
  name : String
deriving DecidableEq, Repr

/-- The fields of the cluster `Infrastructure` resource that the observer
reads: `Status.Platform` (a string-typed platform enumeration) and
`Spec.CloudConfig` (config-map name and key). -/
structure Infrastructure where
  platform : String
  cloudConfigName : String
  cloudConfigKey : String
deriving DecidableEq, Repr

/-- The injected capability bundle (the `InfrastructureLister` interface):
outcomes of the infrastructure lookup, the feature-gate lookup, the managed
config-map lookup, the config-map sync trigger, and — modelled from the
spec — the verdict of the external capability evaluator
`cloudprovider.IsCloudProviderExternal` (its source is not part of the
excerpt; only its `(bool, error)` result is observable here). -/
structure Listers where
  infrastructureGet : GetResult Infrastructure
  featureGateGet : GetResult Unit
  evalExternal : Except String Bool
  managedConfigMapGet : GetResult Unit
  syncConfigMap : ResourceLocation → ResourceLocation → Option String

/-- The observer configuration fixed at construction time
(`NewCloudProviderObserver`). -/
structure CloudProviderObserver where
  targetNamespaceName : String
  cloudProviderNamePath : List String
  cloudProviderConfigPath : List String

/-- Everything one invocation of the observer produces: the returned
configuration map, the returned error list, the events emitted to the
recorder, the sync requests issued, and a flag marking that the invocation
ended on one of the hard-error return paths (infrastructure lookup error,
external-provider check error, managed config-map lookup error, sync
failure, or config-path write failure). -/
structure ObserveOutcome where
  ret : UMap
  errs : List String
  events : List Event
  syncs : List (ResourceLocation × ResourceLocation)
  hardError : Bool
deriving DecidableEq, Repr

def configNamespace : String := "openshift-config"
def machineSpecifiedConfigNamespace : String := "openshift-config-managed"
def machineSpecifiedConfig : String := "kube-cloud-config"

/-- `configv1.GroupName` (openshift/api). -/
def groupName : String := "config.openshift.io"

/-- `cloudProviderConfFilePath` with its single `%s` verb split off:
`fmt.Sprintf` of the template is concatenation with the key. -/
def cloudProviderConfFilePrefix : String :=
  "/etc/kubernetes/static-pod-resources/configmaps/cloud-config/"

/-- Platform-type constants (string values as declared by openshift/api
config/v1, whose source is not part of the excerpt). -/
def AWSPlatformType : String := "AWS"
def AzurePlatformType : String := "Azure"
def VSpherePlatformType : String := "VSphere"
def BareMetalPlatformType : String := "BareMetal"
def GCPPlatformType : String := "GCP"
def LibvirtPlatformType : String := "Libvirt"
def OpenStackPlatformType : String := "OpenStack"
def IBMCloudPlatformType : String := "IBMCloud"
def NonePlatformType : String := "None"
def OvirtPlatformType : String := "oVirt"
def KubevirtPlatformType : String := "KubeVirt"
def AlibabaCloudPlatformType : String := "AlibabaCloud"

/-- `GetPlatformName`: maps a platform type to the in-tree provider name
required by `cloud-provider` flags, together with the events it records.
Empty and unrecognized platform values emit a warning and map to the empty
string, as do the platforms without an in-tree provider. -/
def GetPlatformName (platformType : String) : String × List Event :=
  if platformType = "" then
    ("", [⟨true, "ObserveCloudProvidersFailed",
      "Required status.platform field is not set in infrastructures." ++ groupName ++ "/cluster"⟩])
  else if platformType = AWSPlatformType then ("aws", [])
  else if platformType = AzurePlatformType then ("azure", [])
  else if platformType = VSpherePlatformType then ("vsphere", [])
  else if platformType = BareMetalPlatformType then ("", [])
  else if platformType = GCPPlatformType then ("gce", [])
  else if platformType = LibvirtPlatformType then ("", [])
  else if platformType = OpenStackPlatformType then ("openstack", [])
  else if platformType = IBMCloudPlatformType then ("", [])
  else if platformType = NonePlatformType then ("", [])
  else if platformType = OvirtPlatformType then ("", [])
  else if platformType = KubevirtPlatformType then ("", [])
  else if platformType = AlibabaCloudPlatformType then ("", [])
  else
    ("", [⟨true, "ObserveCloudProvidersFailed",
      "No recognized cloud provider platform found in infrastructures." ++ groupName ++ "/cluster.status.platform"⟩])

/-- `IsCloudProviderExternal` (the function of this file): an absent
feature gate means in-tree (`false` with no error), any other lookup error
is wrapped and fatal, and otherwise the verdict of the external capability
evaluator is wrapped on error and returned on success. -/
def IsCloudProviderExternal (listers : Listers) : Except String Bool :=
  match listers.featureGateGet with
  | .notFound => .ok false
  | .err e => .error ("could not fetch featuregate: " ++ e)
  | .found _ =>
    match listers.evalExternal with
    | .error e => .error ("could not determine if cloud provider is external from featuregate: " ++ e)
    | .ok b => .ok b

/-- The fixed allow-list of providers for which a config-map is synced
(`sets.NewString("aws", "azure", "gce", "openstack", "vsphere")`). -/
def validCloudProviders : List String := ["aws", "azure", "gce", "openstack", "vsphere"]

/-- Lines 80-87: write the provider name into the fresh observed config at
the name path: `"external"` in external mode, else the resolved platform
name when non-empty, else nothing. -/
def providerNameWrite (external : Bool) (cloudProvider : String)
    (namePath : List String) : Except String UMap :=
  if external then setNestedField [] (.vStrings ["external"]) namePath
  else if cloudProvider = "" then .ok []
  else setNestedField [] (.vStrings [cloudProvider]) namePath

/-- The observed config after the provider-name write of lines 80-87 (`{}`
when nothing is written or the write fails). -/
def pnObserved (external : Bool) (cloudProvider : String) (namePath : List String) : UMap :=
  match providerNameWrite external cloudProvider namePath with
  | .ok m => m
  | .error _ => []

/-- The errors collected by the provider-name write of lines 80-87. -/
def pnErrs (external : Bool) (cloudProvider : String) (namePath : List String) : List String :=
  match providerNameWrite external cloudProvider namePath with
  | .ok _ => []
  | .error e => [e]

/-- Line 111: the source config-map name is cleared outside the provider
allow-list. -/
def effSourceMap (cloudProvider sourceCloudConfigMap0 : String) : String :=
  if validCloudProviders.contains cloudProvider then sourceCloudConfigMap0 else ""

/-- Lines 103-116: the sync source location, empty when the (possibly
cleared) source config-map name is empty. -/
def effSourceLoc (sourceCloudConfigNamespace sourceCloudConfigMap : String) : ResourceLocation :=
  if sourceCloudConfigMap = "" then ⟨"", ""⟩
  else ⟨sourceCloudConfigNamespace, sourceCloudConfigMap⟩

/-- The change-notification event of line 145. -/
def changeEvent (staticCloudConfFile : String) : Event :=
  ⟨false, "ObserveCloudProviderNamesChanges",
    "CloudProvider config file changed to " ++ staticCloudConfFile⟩

/-- The events of lines 138-146: a change notification unless the prior
configuration already held exactly the new config-file path. -/
def changeEvents (existingConfig : UMap) (configPath : List String)
    (staticCloudConfFile : String) : List Event :=
  match nestedStringSlice existingConfig configPath with
  | .found ss => if ss = [staticCloudConfFile] then [] else [changeEvent staticCloudConfFile]
  | _ => [changeEvent staticCloudConfFile]

/-- The error list of lines 138-142: a read failure on the prior
configuration is collected but does not stop the observation. -/
def readErrs (errs0 : List String) (existingConfig : UMap) (configPath : List String) :
    List String :=
  match nestedStringSlice existingConfig configPath with
  | .fail e => errs0 ++ [e]
  | _ => errs0

/-- Lines 103-148 of `ObserveCloudProviderNames`: clear the source
config-map outside the provider allow-list, issue the sync, and on a
non-empty source write the static config-file path and emit the change
event when the prior configuration differed. -/
def observeSync (c : CloudProviderObserver) (listers : Listers) (existingConfig : UMap)
    (cloudProvider : String) (errs0 : List String) (platformEvents : List Event)
    (sourceCloudConfigMap0 sourceCloudConfigNamespace sourceCloudConfigKey : String)
    (observedConfig : UMap) : ObserveOutcome :=
  match listers.syncConfigMap ⟨c.targetNamespaceName, "cloud-config"⟩
      (effSourceLoc sourceCloudConfigNamespace (effSourceMap cloudProvider sourceCloudConfigMap0)) with
  | some e =>
    ⟨Pruned existingConfig c.cloudProviderConfigPath c.cloudProviderNamePath, errs0 ++ [e],
      platformEvents,
      [(⟨c.targetNamespaceName, "cloud-config"⟩,
        effSourceLoc sourceCloudConfigNamespace (effSourceMap cloudProvider sourceCloudConfigMap0))],
      true⟩
  | none =>
    if effSourceMap cloudProvider sourceCloudConfigMap0 = "" then
      ⟨Pruned observedConfig c.cloudProviderConfigPath c.cloudProviderNamePath, errs0,
        platformEvents,
        [(⟨c.targetNamespaceName, "cloud-config"⟩, ⟨"", ""⟩)], false⟩
    else
      match setNestedField observedConfig
          (.vStrings [cloudProviderConfFilePrefix ++ sourceCloudConfigKey])
          c.cloudProviderConfigPath with
      | .error e =>
        ⟨Pruned existingConfig c.cloudProviderConfigPath c.cloudProviderNamePath, errs0 ++ [e],
          platformEvents ++
            [⟨true, "ObserveCloudProviderNames", "Failed setting cloud-config : " ++ e⟩],
          [(⟨c.targetNamespaceName, "cloud-config"⟩,
            effSourceLoc sourceCloudConfigNamespace (effSourceMap cloudProvider sourceCloudConfigMap0))],
          true⟩
      | .ok observedConfig2 =>
        ⟨Pruned observedConfig2 c.cloudProviderConfigPath c.cloudProviderNamePath,
          readErrs errs0 existingConfig c.cloudProviderConfigPath,
          platformEvents ++
            changeEvents existingConfig c.cloudProviderConfigPath
              (cloudProviderConfFilePrefix ++ sourceCloudConfigKey),
          [(⟨c.targetNamespaceName, "cloud-config"⟩,
            effSourceLoc sourceCloudConfigNamespace (effSourceMap cloudProvider sourceCloudConfigMap0))],
          false⟩

/-- `ObserveCloudProviderNames`, for a listers value implementing
`InfrastructureLister`: the full observation sequence of lines 53-148,
with the deferred `Pruned` applied on every return path. -/
def ObserveCloudProviderNames (c : CloudProviderObserver) (listers : Listers)
    (existingConfig : UMap) : ObserveOutcome :=
  match listers.infrastructureGet with
  | .notFound =>
    ⟨Pruned [] c.cloudProviderConfigPath c.cloudProviderNamePath, [],
      [⟨true, "ObserveCloudProviderNames",
        "Required infrastructures." ++ groupName ++ "/cluster not found"⟩], [], false⟩
  | .err e =>
    ⟨Pruned existingConfig c.cloudProviderConfigPath c.cloudProviderNamePath, [e], [], [], true⟩
  | .found infrastructure =>
    match IsCloudProviderExternal listers with
    | .error e =>
      ⟨Pruned existingConfig c.cloudProviderConfigPath c.cloudProviderNamePath, [e],
        [⟨true, "ObserveCloudProviderNames",
          "Could not determine external cloud provider state: " ++ e⟩], [], true⟩
    | .ok external =>
      match listers.managedConfigMapGet with
      | .err e =>
        ⟨Pruned existingConfig c.cloudProviderConfigPath c.cloudProviderNamePath,
          pnErrs external (GetPlatformName infrastructure.platform).1 c.cloudProviderNamePath
            ++ [e],
          (GetPlatformName infrastructure.platform).2, [], true⟩
      | .found _ =>
        observeSync c listers existingConfig (GetPlatformName infrastructure.platform).1
          (pnErrs external (GetPlatformName infrastructure.platform).1 c.cloudProviderNamePath)
          (GetPlatformName infrastructure.platform).2
          machineSpecifiedConfig machineSpecifiedConfigNamespace "cloud.conf"
          (pnObserved external (GetPlatformName infrastructure.platform).1 c.cloudProviderNamePath)
      | .notFound =>
        observeSync c listers existingConfig (GetPlatformName infrastructure.platform).1
          (pnErrs external (GetPlatformName infrastructure.platform).1 c.cloudProviderNamePath)
          (GetPlatformName infrastructure.platform).2
          infrastructure.cloudConfigName configNamespace infrastructure.cloudConfigKey
          (pnObserved external (GetPlatformName infrastructure.platform).1 c.cloudProviderNamePath)

/-- A value of the generic `configobserver.Listers` interface: either it
implements `InfrastructureLister`, or it is some other implementation. -/
inductive GenericListers where
  | infra : Listers → GenericListers
  | other : String → GenericListers

/-- The observer entry point at its declared signature: line 58 performs
the unchecked type assertion `genericListers.(InfrastructureLister)`, which
in Go panics when the dynamic type does not implement the interface;
`none` models that panic. -/
def ObserveCloudProviderNamesGeneric (c : CloudProviderObserver)
    (genericListers : GenericListers) (existingConfig : UMap) : Option ObserveOutcome :=
  match genericListers with
  | .other _ => none
  | .infra listers => some (ObserveCloudProviderNames c listers existingConfig)

/-! ## Basic lemmas on the nested-map operations -/

theorem ulookup_insertKV_self (m : UMap) (k : String) (v : UValue) :
    ulookup k (insertKV m k v) = some v := by
  induction m with
  | nil => simp [insertKV, ulookup]
  | cons kv rest ih =>
    obtain ⟨k0, v0⟩ := kv
    by_cases h : k0 = k
    · simp [insertKV, h, ulookup]
    · simp [insertKV, h, ulookup, ih]

theorem ulookup_insertKV_ne (m : UMap) (k k1 : String) (v : UValue) (h : k1 ≠ k) :
    ulookup k1 (insertKV m k v) = ulookup k1 m := by
  induction m with
  | nil => simp [insertKV, ulookup, Ne.symm h]
  | cons kv rest ih =>
    obtain ⟨k0, v0⟩ := kv
    by_cases h0 : k0 = k
    · subst h0
      simp [insertKV, ulookup, Ne.symm h]
    · simp [insertKV, h0, ulookup, ih]

theorem insertKV_lookup_self (m : UMap) (k : String) (v : UValue)
    (h : ulookup k m = some v) : insertKV m k v = m := by
  induction m with
  | nil => simp [ulookup] at h
  | cons kv rest ih =>
    obtain ⟨k0, v0⟩ := kv
    by_cases h0 : k0 = k
    · subst h0
      simp [ulookup] at h
      simp [insertKV, h]
    · simp [ulookup, h0] at h
      simp [insertKV, h0, ih h]

@[simp] theorem getV_nil (v : UValue) : getV v [] = some v := by
  cases v <;> rfl

theorem getNested_nil (m : UMap) : getNested m [] = some (.vMap m) := rfl

theorem getNested_cons (m : UMap) (k : String) (r : List String) :
    getNested m (k :: r) = match ulookup k m with
      | some v => getV v r
      | none => none := rfl

theorem getNested_eq_getV (m : UMap) (p : List String) :
    getNested m p = getV (.vMap m) p := rfl

@[simp] theorem getNested_empty (p : List String) (hp : p ≠ []) :
    getNested ([] : UMap) p = none := by
  cases p with
  | nil => exact absurd rfl hp
  | cons k r => simp [getNested_cons, ulookup]

theorem getV_append (a b : List String) (v : UValue) :
    getV v (a ++ b) = getVO (getV v a) b := by
  induction a generalizing v with
  | nil => simp [getVO]
  | cons k ar ih =>
    cases v with
    | vStrings s => simp [getV, getVO]
    | vOther s => simp [getV, getVO]
    | vMap m =>
      cases h : ulookup k m with
      | some w => simp [getV, h, ih]
      | none => simp [getV, h, getVO]

theorem getNested_append (m : UMap) (a b : List String) :
    getNested m (a ++ b) = getVO (getNested m a) b :=
  getV_append a b (.vMap m)

theorem getV_cons_isMap {v w : UValue} {k : String} {r : List String}
    (h : getV v (k :: r) = some w) : ∃ mm, v = .vMap mm := by
  cases v with
  | vStrings s => simp [getV] at h
  | vOther s => simp [getV] at h
  | vMap m => exact ⟨m, rfl⟩

theorem setNestedField_nil (m : UMap) (v : UValue) :
    setNestedField m v [] = .error "no fields to set" := rfl

theorem setNestedField_single (m : UMap) (v : UValue) (k : String) :
    setNestedField m v [k] = .ok (insertKV m k v) := rfl

theorem setNestedField_empty_ok (v : UValue) (p : List String) (hp : p ≠ []) :
    ∃ m1, setNestedField ([] : UMap) v p = .ok m1 := by
  induction p with
  | nil => exact absurd rfl hp
  | cons k r ih =>
    cases r with
    | nil => exact ⟨insertKV [] k v, rfl⟩
    | cons k1 rest =>
      obtain ⟨m1, hm1⟩ := ih (by simp)
      exact ⟨insertKV [] k (.vMap m1), by simp [setNestedField, ulookup, hm1]⟩

theorem setNestedField_ok_getNested {m m1 : UMap} {v : UValue} {p : List String}
    (h : setNestedField m v p = .ok m1) : getNested m1 p = some v := by
  induction m, v, p using setNestedField.induct generalizing m1 with
  | case1 m v =>
    exact Except.noConfusion h
  | case2 m v k =>
    rw [setNestedField_single] at h
    injection h with h
    subst h
    simp [getNested_cons, ulookup_insertKV_self]
  | case3 m v k k1 rest m0 hlk m2 hset ih =>
    simp only [setNestedField, hlk, hset] at h
    injection h with h
    subst h
    simp [getNested_cons, ulookup_insertKV_self, ← getNested_eq_getV, ih hset]
  | case4 m v k k1 rest m0 hlk e hset =>
    simp only [setNestedField, hlk, hset] at h
    exact Except.noConfusion h
  | case5 m v k k1 rest s hlk =>
    simp only [setNestedField, hlk] at h
    exact Except.noConfusion h
  | case6 m v k k1 rest s hlk =>
    simp only [setNestedField, hlk] at h
    exact Except.noConfusion h
  | case7 m v k k1 rest hlk m2 hset ih =>
    simp only [setNestedField, hlk, hset] at h
    injection h with h
    subst h
    simp [getNested_cons, ulookup_insertKV_self, ← getNested_eq_getV, ih hset]
  | case8 m v k k1 rest hlk e hset =>
    simp only [setNestedField, hlk, hset] at h
    exact Except.noConfusion h

theorem setNestedField_ok_getNested_other {m m1 : UMap} {v : UValue} {p q : List String}
    (h : setNestedField m v p = .ok m1) (hpq : ¬ p <+: q) (hqp : ¬ q <+: p) :
    getNested m1 q = getNested m q := by
  induction m, v, p using setNestedField.induct generalizing m1 q with
  | case1 m v => exact Except.noConfusion h
  | case2 m v k =>
    rw [setNestedField_single] at h
    injection h with h
    subst h
    cases q with
    | nil => exact absurd List.nil_prefix hqp
    | cons kq qr =>
      by_cases hk : kq = k
      · subst hk
        exact absurd (List.cons_prefix_cons.2 ⟨rfl, List.nil_prefix⟩) hpq
      · simp [getNested_cons, ulookup_insertKV_ne _ _ _ _ hk]
  | case3 m v k k1 rest m0 hlk m2 hset ih =>
    simp only [setNestedField, hlk, hset] at h
    injection h with h
    subst h
    cases q with
    | nil => exact absurd List.nil_prefix hqp
    | cons kq qr =>
      by_cases hk : kq = k
      · subst hk
        have hpq2 : ¬ (k1 :: rest) <+: qr := fun hh => hpq (List.cons_prefix_cons.2 ⟨rfl, hh⟩)
        have hqp2 : ¬ qr <+: (k1 :: rest) := fun hh => hqp (List.cons_prefix_cons.2 ⟨rfl, hh⟩)
        simp [getNested_cons, ulookup_insertKV_self, hlk, ← getNested_eq_getV, ih hset hpq2 hqp2]
      · simp [getNested_cons, ulookup_insertKV_ne _ _ _ _ hk]
  | case4 m v k k1 rest m0 hlk e hset =>
    simp only [setNestedField, hlk, hset] at h
    exact Except.noConfusion h
  | case5 m v k k1 rest s hlk =>
    simp only [setNestedField, hlk] at h
    exact Except.noConfusion h
  | case6 m v k k1 rest s hlk =>
    simp only [setNestedField, hlk] at h
    exact Except.noConfusion h
  | case7 m v k k1 rest hlk m2 hset ih =>
    simp only [setNestedField, hlk, hset] at h
    injection h with h
    subst h
    cases q with
    | nil => exact absurd List.nil_prefix hqp
    | cons kq qr =>
      by_cases hk : kq = k
      · subst hk
        cases qr with
        | nil => exact absurd (List.cons_prefix_cons.2 ⟨rfl, List.nil_prefix⟩) hqp
        | cons kq1 qr1 =>
          have hpq2 : ¬ (k1 :: rest) <+: (kq1 :: qr1) :=
            fun hh => hpq (List.cons_prefix_cons.2 ⟨rfl, hh⟩)
          have hqp2 : ¬ (kq1 :: qr1) <+: (k1 :: rest) :=
            fun hh => hqp (List.cons_prefix_cons.2 ⟨rfl, hh⟩)
          simp [getNested_cons, ulookup_insertKV_self, hlk, ← getNested_eq_getV,
            ih hset hpq2 hqp2, ulookup]
      · simp [getNested_cons, ulookup_insertKV_ne _ _ _ _ hk]
  | case8 m v k k1 rest hlk e hset =>
    simp only [setNestedField, hlk, hset] at h
    exact Except.noConfusion h

theorem setNestedField_ok_prefix_isMap {m m1 : UMap} {v : UValue} {p q : List String}
    (h : setNestedField m v p = .ok m1) (hq : q <+: p) (hne : q ≠ p) :
    ∃ mm, getNested m1 q = some (.vMap mm) := by
  induction m, v, p using setNestedField.induct generalizing m1 q with
  | case1 m v => exact Except.noConfusion h
  | case2 m v k =>
    rw [setNestedField_single] at h
    injection h with h
    subst h
    cases q with
    | nil => exact ⟨_, rfl⟩
    | cons kq qr =>
      obtain ⟨hk, hr⟩ := List.cons_prefix_cons.1 hq
      obtain ⟨t, ht⟩ := hr
      have : qr = [] := by
        cases qr with
        | nil => rfl
        | cons a b => simp at ht
      subst this
      subst hk
      exact absurd rfl hne
  | case3 m v k k1 rest m0 hlk m2 hset ih =>
    simp only [setNestedField, hlk, hset] at h
    injection h with h
    subst h
    cases q with
    | nil => exact ⟨_, rfl⟩
    | cons kq qr =>
      obtain ⟨hk, hr⟩ := List.cons_prefix_cons.1 hq
      subst hk
      have hne2 : qr ≠ k1 :: rest := fun hh => hne (by rw [hh])
      obtain ⟨mm, hmm⟩ := ih hset hr hne2
      exact ⟨mm, by simp [getNested_cons, ulookup_insertKV_self, ← getNested_eq_getV, hmm]⟩
  | case4 m v k k1 rest m0 hlk e hset =>
    simp only [setNestedField, hlk, hset] at h
    exact Except.noConfusion h
  | case5 m v k k1 rest s hlk =>
    simp only [setNestedField, hlk] at h
    exact Except.noConfusion h
  | case6 m v k k1 rest s hlk =>
    simp only [setNestedField, hlk] at h
    exact Except.noConfusion h
  | case7 m v k k1 rest hlk m2 hset ih =>
    simp only [setNestedField, hlk, hset] at h
    injection h with h
    subst h
    cases q with
    | nil => exact ⟨_, rfl⟩
    | cons kq qr =>
      obtain ⟨hk, hr⟩ := List.cons_prefix_cons.1 hq
      subst hk
      have hne2 : qr ≠ k1 :: rest := fun hh => hne (by rw [hh])
      obtain ⟨mm, hmm⟩ := ih hset hr hne2
      exact ⟨mm, by simp [getNested_cons, ulookup_insertKV_self, ← getNested_eq_getV, hmm]⟩
  | case8 m v k k1 rest hlk e hset =>
    simp only [setNestedField, hlk, hset] at h
    exact Except.noConfusion h

theorem setNestedField_self {m : UMap} {v : UValue} {p : List String}
    (h : getNested m p = some v) (hp : p ≠ []) : setNestedField m v p = .ok m := by
  induction p generalizing m v with
  | nil => exact absurd rfl hp
  | cons k r ih =>
    cases r with
    | nil =>
      rw [getNested_cons] at h
      cases hlk : ulookup k m with
      | none => rw [hlk] at h; exact Option.noConfusion h
      | some w =>
        rw [hlk] at h
        simp at h
        subst h
        rw [setNestedField_single, insertKV_lookup_self m k _ hlk]
    | cons k1 rest =>
      rw [getNested_cons] at h
      cases hlk : ulookup k m with
      | none => rw [hlk] at h; exact Option.noConfusion h
      | some w =>
        rw [hlk] at h
        obtain ⟨m0, rfl⟩ := getV_cons_isMap h
        have h2 : getNested m0 (k1 :: rest) = some v := h
        have := ih h2 (by simp)
        simp [setNestedField, hlk, this, insertKV_lookup_self m k _ hlk]

theorem setNestedField_ok_of_prefixes {m : UMap} {v : UValue} {p : List String}
    (hp : p ≠ [])
    (h : ∀ q w, q <+: p → q ≠ p → getNested m q = some w → ∃ mm, w = UValue.vMap mm) :
    ∃ m1, setNestedField m v p = .ok m1 := by
  induction p generalizing m with
  | nil => exact absurd rfl hp
  | cons k r ih =>
    cases r with
    | nil => exact ⟨insertKV m k v, rfl⟩
    | cons k1 rest =>
      cases hlk : ulookup k m with
      | some w =>
        have hw : ∃ mm, w = UValue.vMap mm := by
          refine h [k] w (List.cons_prefix_cons.2 ⟨rfl, List.nil_prefix⟩) (by simp) ?_
          simp [getNested_cons, hlk]
        obtain ⟨m0, rfl⟩ := hw
        have hcond : ∀ q w2, q <+: (k1 :: rest) → q ≠ (k1 :: rest) →
            getNested m0 q = some w2 → ∃ mm, w2 = UValue.vMap mm := by
          intro q w2 hq hne hget
          refine h (k :: q) w2 (List.cons_prefix_cons.2 ⟨rfl, hq⟩) (by simp [hne]) ?_
          simp [getNested_cons, hlk, ← getNested_eq_getV, hget]
        obtain ⟨m1, hm1⟩ := ih (by simp) hcond
        exact ⟨insertKV m k (.vMap m1), by simp [setNestedField, hlk, hm1]⟩
      | none =>
        obtain ⟨m1, hm1⟩ := setNestedField_empty_ok v (k1 :: rest) (by simp)
        exact ⟨insertKV m k (.vMap m1), by simp [setNestedField, hlk, hm1]⟩

theorem setNestedField_append {m m1 m0 : UMap} {v : UValue} {p t : List String}
    (ht : t ≠ [])
    (hsub : getNested m p = some (.vMap m0))
    (h : setNestedField m v (p ++ t) = .ok m1) :
    ∃ inner, setNestedField m0 v t = .ok inner ∧ getNested m1 p = some (.vMap inner) := by
  induction p generalizing m m1 with
  | nil =>
    rw [getNested_nil] at hsub
    injection hsub with hsub
    injection hsub with hsub
    subst hsub
    exact ⟨m1, by simpa using h, rfl⟩
  | cons k r ih =>
    rw [getNested_cons] at hsub
    cases hlk : ulookup k m with
    | none => rw [hlk] at hsub; exact Option.noConfusion hsub
    | some w =>
      rw [hlk] at hsub
      have hsub1 : getV w r = some (.vMap m0) := hsub
      have hwmap : ∃ mA, w = UValue.vMap mA := by
        cases r with
        | nil =>
          rw [getV_nil] at hsub1
          exact ⟨m0, by injection hsub1⟩
        | cons x xs => exact getV_cons_isMap hsub1
      obtain ⟨mA, rfl⟩ := hwmap
      have hsubA : getNested mA r = some (.vMap m0) := hsub1
      have hcons : (k :: r) ++ t = k :: (r ++ t) := rfl
      rw [hcons] at h
      cases hr : r ++ t with
      | nil =>
        cases t with
        | nil => exact absurd rfl ht
        | cons a b => simp at hr
      | cons x xs =>
        rw [hr] at h
        simp only [setNestedField, hlk] at h
        cases hset : setNestedField mA v (x :: xs) with
        | error e => rw [hset] at h; exact Except.noConfusion h
        | ok m2 =>
          rw [hset] at h
          injection h with h
          subst h
          rw [← hr] at hset
          obtain ⟨inner, hin, hget⟩ := ih hsubA hset
          refine ⟨inner, hin, ?_⟩
          simp [getNested_cons, ulookup_insertKV_self, ← getNested_eq_getV, hget]

theorem nssV_of_getV {v : UValue} {p : List String} {ss : List String}
    (h : getV v p = some (.vStrings ss)) : nssV v p = .found ss := by
  induction p generalizing v with
  | nil =>
    rw [getV_nil] at h
    injection h with h
    subst h
    rfl
  | cons k r ih =>
    cases v with
    | vStrings s => simp [getV] at h
    | vOther s => simp [getV] at h
    | vMap m =>
      cases hlk : ulookup k m with
      | none => simp [getV, hlk] at h
      | some w =>
        rw [show getV (.vMap m) (k :: r) = getV w r by simp [getV, hlk]] at h
        simpa [nssV, hlk] using ih h

theorem nestedStringSlice_of_getNested {m : UMap} {p : List String} {ss : List String}
    (h : getNested m p = some (.vStrings ss)) : nestedStringSlice m p = .found ss :=
  nssV_of_getV h

/-! ## Lemmas about the pruning step -/

@[simp] theorem getVO_some (v : UValue) (p : List String) : getVO (some v) p = getV v p := rfl

@[simp] theorem getVO_none (p : List String) : getVO none p = none := rfl

theorem prunedStep_nil_path (m acc : UMap) : prunedStep m acc [] = acc := rfl

theorem prunedStep_of_none {m : UMap} {p : List String} (acc : UMap)
    (h : getNested m p = none) : prunedStep m acc p = acc := by
  simp [prunedStep, h]

theorem prunedStep_of_ok {m acc acc1 : UMap} {v : UValue} {p : List String}
    (h : getNested m p = some v) (h2 : setNestedField acc v p = .ok acc1) :
    prunedStep m acc p = acc1 := by
  simp [prunedStep, h, h2]

theorem prunedStep_of_error {m acc : UMap} {v : UValue} {p : List String} {e : String}
    (h : getNested m p = some v) (h2 : setNestedField acc v p = .error e) :
    prunedStep m acc p = acc := by
  simp [prunedStep, h, h2]

theorem prunedStep_empty_src (acc : UMap) (p : List String) :
    prunedStep ([] : UMap) acc p = acc := by
  cases p with
  | nil => rfl
  | cons k r => exact prunedStep_of_none acc (by simp)

theorem Pruned_empty_src (p1 p2 : List String) : Pruned ([] : UMap) p1 p2 = [] := by
  unfold Pruned
  rw [prunedStep_empty_src, prunedStep_empty_src]

theorem getNested_prunedStep_self {m : UMap} {p : List String} (hp : p ≠ []) :
    getNested (prunedStep m [] p) p = getNested m p := by
  cases hg : getNested m p with
  | none =>
    rw [prunedStep_of_none _ hg]
    exact getNested_empty p hp
  | some v =>
    obtain ⟨m1, hm1⟩ := setNestedField_empty_ok v p hp
    rw [prunedStep_of_ok hg hm1]
    exact setNestedField_ok_getNested hm1

theorem pruned_second_set_ok {m A1 : UMap} {v1 v2 : UValue} {p1 p2 : List String}
    (hp2 : p2 ≠ [])
    (hg1 : getNested m p1 = some v1) (hA1 : setNestedField [] v1 p1 = .ok A1)
    (hg2 : getNested m p2 = some v2) :
    ∃ A2, setNestedField A1 v2 p2 = .ok A2 := by
  refine setNestedField_ok_of_prefixes hp2 ?_
  intro q w hq hne hget
  by_cases hq1 : q <+: p1
  · by_cases hqe : q = p1
    · subst hqe
      rw [setNestedField_ok_getNested hA1] at hget
      injection hget with hget
      subst hget
      obtain ⟨t, rfl⟩ := hq
      have ht : t ≠ [] := by
        intro hh
        subst hh
        simp at hne
      rw [getNested_append, hg1, getVO_some] at hg2
      cases t with
      | nil => exact absurd rfl ht
      | cons a b => exact getV_cons_isMap hg2
    · obtain ⟨mm, hmm⟩ := setNestedField_ok_prefix_isMap hA1 hq1 hqe
      rw [hget] at hmm
      injection hmm with hmm
      exact ⟨mm, hmm⟩
  · by_cases hq2 : p1 <+: q
    · obtain ⟨s, rfl⟩ := hq2
      rw [getNested_append, setNestedField_ok_getNested hA1, getVO_some] at hget
      obtain ⟨u, rfl⟩ := hq
      have hu : u ≠ [] := by
        intro hh
        subst hh
        simp at hne
      rw [getNested_append, getNested_append, hg1, getVO_some, hget, getVO_some] at hg2
      cases u with
      | nil => exact absurd rfl hu
      | cons a b => exact getV_cons_isMap hg2
    · rw [setNestedField_ok_getNested_other hA1 hq2 hq1] at hget
      cases q with
      | nil => exact absurd List.nil_prefix hq1
      | cons a b => rw [getNested_empty _ (by simp)] at hget; exact Option.noConfusion hget

theorem getNested_Pruned_second {m : UMap} {p1 p2 : List String} (hp2 : p2 ≠ []) :
    getNested (Pruned m p1 p2) p2 = getNested m p2 := by
  unfold Pruned
  by_cases hp1 : p1 = []
  · subst hp1
    rw [prunedStep_nil_path]
    exact getNested_prunedStep_self hp2
  · cases hg1 : getNested m p1 with
    | none =>
      rw [prunedStep_of_none _ hg1]
      exact getNested_prunedStep_self hp2
    | some v1 =>
      obtain ⟨A1, hA1⟩ := setNestedField_empty_ok v1 p1 hp1
      rw [prunedStep_of_ok hg1 hA1]
      cases hg2 : getNested m p2 with
      | none =>
        rw [prunedStep_of_none _ hg2]
        by_cases hc1 : p1 <+: p2
        · obtain ⟨t, rfl⟩ := hc1
          rw [getNested_append, setNestedField_ok_getNested hA1, getVO_some]
          rw [getNested_append, hg1, getVO_some] at hg2
          exact hg2
        · by_cases hc2 : p2 <+: p1
          · obtain ⟨t, rfl⟩ := hc2
            rw [getNested_append, hg2, getVO_none] at hg1
            exact Option.noConfusion hg1
          · rw [setNestedField_ok_getNested_other hA1 hc1 hc2]
            exact getNested_empty p2 hp2
      | some v2 =>
        obtain ⟨A2, hA2⟩ := pruned_second_set_ok hp2 hg1 hA1 hg2
        rw [prunedStep_of_ok hg2 hA2]
        exact setNestedField_ok_getNested hA2

theorem getNested_Pruned_first {m : UMap} {p1 p2 : List String} (hp1 : p1 ≠ []) :
    getNested (Pruned m p1 p2) p1 = getNested m p1 := by
  unfold Pruned
  cases hg1 : getNested m p1 with
  | none =>
    rw [prunedStep_of_none _ hg1]
    cases hg2 : getNested m p2 with
    | none =>
      rw [prunedStep_of_none _ hg2]
      exact getNested_empty p1 hp1
    | some v2 =>
      by_cases hp2 : p2 = []
      · subst hp2
        rw [prunedStep_nil_path]
        exact getNested_empty p1 hp1
      · obtain ⟨R, hR⟩ := setNestedField_empty_ok v2 p2 hp2
        rw [prunedStep_of_ok hg2 hR]
        by_cases hc2 : p2 <+: p1
        · obtain ⟨t, rfl⟩ := hc2
          rw [getNested_append, setNestedField_ok_getNested hR, getVO_some]
          rw [getNested_append, hg2, getVO_some] at hg1
          exact hg1
        · by_cases hc1 : p1 <+: p2
          · obtain ⟨t, rfl⟩ := hc1
            rw [getNested_append, hg1, getVO_none] at hg2
            exact Option.noConfusion hg2
          · rw [setNestedField_ok_getNested_other hR hc2 hc1]
            exact getNested_empty p1 hp1
  | some v1 =>
    obtain ⟨A1, hA1⟩ := setNestedField_empty_ok v1 p1 hp1
    rw [prunedStep_of_ok hg1 hA1]
    cases hg2 : getNested m p2 with
    | none =>
      rw [prunedStep_of_none _ hg2]
      exact setNestedField_ok_getNested hA1
    | some v2 =>
      by_cases hp2 : p2 = []
      · subst hp2
        rw [prunedStep_nil_path]
        exact setNestedField_ok_getNested hA1
      · obtain ⟨A2, hA2⟩ := pruned_second_set_ok hp2 hg1 hA1 hg2
        rw [prunedStep_of_ok hg2 hA2]
        by_cases hc2 : p2 <+: p1
        · obtain ⟨t, rfl⟩ := hc2
          rw [getNested_append, setNestedField_ok_getNested hA2, getVO_some]
          rw [getNested_append, hg2, getVO_some] at hg1
          exact hg1
        · by_cases hc1 : p1 <+: p2
          · obtain ⟨t, rfl⟩ := hc1
            have ht : t ≠ [] := by
              intro hh
              subst hh
              simp at hc2
            rw [getNested_append, hg1, getVO_some] at hg2
            have hv1m : ∃ m1, v1 = UValue.vMap m1 := by
              cases t with
              | nil => exact absurd rfl ht
              | cons a b => exact getV_cons_isMap hg2
            obtain ⟨m1, rfl⟩ := hv1m
            have hsubtree : getNested A1 p1 = some (UValue.vMap m1) :=
              setNestedField_ok_getNested hA1
            obtain ⟨inner, hin, hget⟩ := setNestedField_append ht hsubtree hA2
            have hself : setNestedField m1 v2 t = .ok m1 :=
              setNestedField_self (show getNested m1 t = some v2 from hg2) ht
            rw [hself] at hin
            injection hin with hin
            subst hin
            exact hget
          · rw [setNestedField_ok_getNested_other hA2 hc2 hc1]
            exact setNestedField_ok_getNested hA1

theorem Pruned_congr {m m2 : UMap} {p1 p2 : List String}
    (h1 : getNested m2 p1 = getNested m p1) (h2 : getNested m2 p2 = getNested m p2) :
    Pruned m2 p1 p2 = Pruned m p1 p2 := by
  unfold Pruned prunedStep
  rw [h1, h2]

theorem Pruned_idem (m : UMap) (p1 p2 : List String) :
    Pruned (Pruned m p1 p2) p1 p2 = Pruned m p1 p2 := by
  by_cases hp1 : p1 = []
  · subst hp1
    have e1 : ∀ mm : UMap, Pruned mm [] p2 = prunedStep mm [] p2 := by
      intro mm
      unfold Pruned
      rw [prunedStep_nil_path]
    rw [e1, e1]
    by_cases hp2 : p2 = []
    · subst hp2
      rw [prunedStep_nil_path, prunedStep_nil_path]
    · cases hg : getNested m p2 with
      | none =>
        rw [prunedStep_of_none _ hg]
        exact prunedStep_empty_src [] p2
      | some v =>
        obtain ⟨A1, hA1⟩ := setNestedField_empty_ok v p2 hp2
        rw [prunedStep_of_ok hg hA1]
        rw [prunedStep_of_ok (setNestedField_ok_getNested hA1) hA1]
  · by_cases hp2 : p2 = []
    · subst hp2
      have e2 : ∀ mm : UMap, Pruned mm p1 [] = prunedStep mm [] p1 := by
        intro mm
        unfold Pruned
        rw [prunedStep_nil_path]
      rw [e2, e2]
      cases hg : getNested m p1 with
      | none =>
        rw [prunedStep_of_none _ hg]
        exact prunedStep_empty_src [] p1
      | some v =>
        obtain ⟨A1, hA1⟩ := setNestedField_empty_ok v p1 hp1
        rw [prunedStep_of_ok hg hA1]
        rw [prunedStep_of_ok (setNestedField_ok_getNested hA1) hA1]
    · exact Pruned_congr (getNested_Pruned_first hp1) (getNested_Pruned_second hp2)

theorem prunedStep_comparable {m acc : UMap} {p q : List String}
    (h : getNested (prunedStep m acc p) q ≠ none) :
    getNested acc q ≠ none ∨ q <+: p ∨ p <+: q := by
  cases hg : getNested m p with
  | none =>
    rw [prunedStep_of_none _ hg] at h
    exact Or.inl h
  | some v =>
    cases hset : setNestedField acc v p with
    | error e =>
      rw [prunedStep_of_error hg hset] at h
      exact Or.inl h
    | ok acc1 =>
      rw [prunedStep_of_ok hg hset] at h
      by_cases hc1 : p <+: q
      · exact Or.inr (Or.inr hc1)
      · by_cases hc2 : q <+: p
        · exact Or.inr (Or.inl hc2)
        · rw [setNestedField_ok_getNested_other hset hc1 hc2] at h
          exact Or.inl h

theorem Pruned_comparable {m : UMap} {p1 p2 q : List String}
    (h : getNested (Pruned m p1 p2) q ≠ none) :
    (q <+: p1 ∨ p1 <+: q) ∨ (q <+: p2 ∨ p2 <+: q) := by
  unfold Pruned at h
  rcases prunedStep_comparable h with h2 | hc
  · rcases prunedStep_comparable h2 with h3 | hc
    · cases q with
      | nil => exact Or.inl (Or.inl List.nil_prefix)
      | cons a b => exact absurd (getNested_empty _ (by simp)) h3
    · exact Or.inl hc
  · exact Or.inr hc

/-! ## Facts about the platform-name resolver -/

theorem GetPlatformName_shape (s : String) :
    ((GetPlatformName s).1 ∈ ["", "aws", "azure", "vsphere", "gce", "openstack"]) ∧
    ((GetPlatformName s).2 = [] ∨
      ∃ msg, (GetPlatformName s).2 = [⟨true, "ObserveCloudProvidersFailed", msg⟩]) := by
  unfold GetPlatformName
  by_cases h0 : s = ""
  · rw [if_pos h0]
    exact ⟨by simp, Or.inr ⟨_, rfl⟩⟩
  · rw [if_neg h0]
    by_cases h1 : s = AWSPlatformType
    · rw [if_pos h1]
      exact ⟨by simp, Or.inl rfl⟩
    · rw [if_neg h1]
      by_cases h2 : s = AzurePlatformType
      · rw [if_pos h2]
        exact ⟨by simp, Or.inl rfl⟩
      · rw [if_neg h2]
        by_cases h3 : s = VSpherePlatformType
        · rw [if_pos h3]
          exact ⟨by simp, Or.inl rfl⟩
        · rw [if_neg h3]
          by_cases h4 : s = BareMetalPlatformType
          · rw [if_pos h4]
            exact ⟨by simp, Or.inl rfl⟩
          · rw [if_neg h4]
            by_cases h5 : s = GCPPlatformType
            · rw [if_pos h5]
              exact ⟨by simp, Or.inl rfl⟩
            · rw [if_neg h5]
              by_cases h6 : s = LibvirtPlatformType
              · rw [if_pos h6]
                exact ⟨by simp, Or.inl rfl⟩
              · rw [if_neg h6]
                by_cases h7 : s = OpenStackPlatformType
                · rw [if_pos h7]
                  exact ⟨by simp, Or.inl rfl⟩
                · rw [if_neg h7]
                  by_cases h8 : s = IBMCloudPlatformType
                  · rw [if_pos h8]
                    exact ⟨by simp, Or.inl rfl⟩
                  · rw [if_neg h8]
                    by_cases h9 : s = NonePlatformType
                    · rw [if_pos h9]
                      exact ⟨by simp, Or.inl rfl⟩
                    · rw [if_neg h9]
                      by_cases h10 : s = OvirtPlatformType
                      · rw [if_pos h10]
                        exact ⟨by simp, Or.inl rfl⟩
                      · rw [if_neg h10]
                        by_cases h11 : s = KubevirtPlatformType
                        · rw [if_pos h11]
                          exact ⟨by simp, Or.inl rfl⟩
                        · rw [if_neg h11]
                          by_cases h12 : s = AlibabaCloudPlatformType
                          · rw [if_pos h12]
                            exact ⟨by simp, Or.inl rfl⟩
                          · rw [if_neg h12]
                            exact ⟨by simp, Or.inr ⟨_, rfl⟩⟩

theorem GetPlatformName_default (s : String)
    (h0 : s ≠ "") (h1 : s ≠ AWSPlatformType) (h2 : s ≠ AzurePlatformType)
    (h3 : s ≠ VSpherePlatformType) (h4 : s ≠ BareMetalPlatformType)
    (h5 : s ≠ GCPPlatformType) (h6 : s ≠ LibvirtPlatformType)
    (h7 : s ≠ OpenStackPlatformType) (h8 : s ≠ IBMCloudPlatformType)
    (h9 : s ≠ NonePlatformType) (h10 : s ≠ OvirtPlatformType)
    (h11 : s ≠ KubevirtPlatformType) (h12 : s ≠ AlibabaCloudPlatformType) :
    GetPlatformName s =
      ("", [⟨true, "ObserveCloudProvidersFailed",
        "No recognized cloud provider platform found in infrastructures.config.openshift.io/cluster.status.platform"⟩]) := by
  unfold GetPlatformName
  rw [if_neg h0, if_neg h1, if_neg h2, if_neg h3, if_neg h4, if_neg h5, if_neg h6,
    if_neg h7, if_neg h8, if_neg h9, if_neg h10, if_neg h11, if_neg h12]
  rfl

theorem GetPlatformName_reason (s : String) :
    ∀ ev ∈ (GetPlatformName s).2, ev.reason = "ObserveCloudProvidersFailed" := by
  intro ev hev
  rcases (GetPlatformName_shape s).2 with h | ⟨msg, h⟩
  · rw [h] at hev
    exact absurd hev (List.not_mem_nil _)
  · rw [h] at hev
    rw [List.mem_singleton] at hev
    subst hev
    rfl

theorem GetPlatformName_ne_external (s : String) :
    (GetPlatformName s).1 ≠ "external" := by
  intro h
  have hv := (GetPlatformName_shape s).1
  rw [h] at hv
  simp at hv

/-! ## Concrete fixtures used by witnesses and counterexamples -/

/-- A sync trigger that always succeeds. -/
def syncOk : ResourceLocation → ResourceLocation → Option String := fun _ _ => none

/-- The observer configuration used by the kube-apiserver operator. -/
def cW : CloudProviderObserver :=
  ⟨"openshift-kube-apiserver", ["apiServerArguments", "cloud-provider"],
    ["apiServerArguments", "cloud-config"]⟩

/-- An AWS infrastructure with a configured cloud-config reference. -/
def infraAWS : Infrastructure := ⟨"AWS", "cloud-provider-config", "aws.conf"⟩

/-! ## C6 -/

/-- C6: when the infrastructure resource is absent, the observation returns
an empty configuration map and an empty error list, emits exactly one
warning event, and issues no sync. -/
theorem observe_infrastructure_notFound (c : CloudProviderObserver) (l : Listers) (e : UMap)
    (h : l.infrastructureGet = .notFound) :
    ObserveCloudProviderNames c l e =
      ⟨[], [],
        [⟨true, "ObserveCloudProviderNames",
          "Required infrastructures.config.openshift.io/cluster not found"⟩], [], false⟩ := by
  unfold ObserveCloudProviderNames
  rw [h]
  simp only [Pruned_empty_src]
  rfl

/-- C6 witness: the not-found branch evaluated at a concrete input. -/
theorem observe_infrastructure_notFound_witness :
    ObserveCloudProviderNames cW ⟨.notFound, .notFound, .ok false, .notFound, syncOk⟩ [] =
      ⟨[], [],
        [⟨true, "ObserveCloudProviderNames",
          "Required infrastructures.config.openshift.io/cluster not found"⟩], [], false⟩ :=
  observe_infrastructure_notFound cW ⟨.notFound, .notFound, .ok false, .notFound, syncOk⟩ [] rfl

/-! ## C7 -/

/-- C7: the platform-name resolver returns exactly the documented string for
each of the 12 defined platform types, the empty string with a warning event
for the empty platform value, and the empty string with a warning event for
every unrecognized value; no other event is emitted. -/
theorem GetPlatformName_table :
    (GetPlatformName AWSPlatformType = ("aws", []) ∧
     GetPlatformName AzurePlatformType = ("azure", []) ∧
     GetPlatformName VSpherePlatformType = ("vsphere", []) ∧
     GetPlatformName GCPPlatformType = ("gce", []) ∧
     GetPlatformName OpenStackPlatformType = ("openstack", []) ∧
     GetPlatformName BareMetalPlatformType = ("", []) ∧
     GetPlatformName LibvirtPlatformType = ("", []) ∧
     GetPlatformName IBMCloudPlatformType = ("", []) ∧
     GetPlatformName NonePlatformType = ("", []) ∧
     GetPlatformName OvirtPlatformType = ("", []) ∧
     GetPlatformName KubevirtPlatformType = ("", []) ∧
     GetPlatformName AlibabaCloudPlatformType = ("", []) ∧
     GetPlatformName "" =
       ("", [⟨true, "ObserveCloudProvidersFailed",
         "Required status.platform field is not set in infrastructures.config.openshift.io/cluster"⟩])) ∧
    (∀ s, s ∉ ["", AWSPlatformType, AzurePlatformType, VSpherePlatformType,
        BareMetalPlatformType, GCPPlatformType, LibvirtPlatformType, OpenStackPlatformType,
        IBMCloudPlatformType, NonePlatformType, OvirtPlatformType, KubevirtPlatformType,
        AlibabaCloudPlatformType] →
      GetPlatformName s =
        ("", [⟨true, "ObserveCloudProvidersFailed",
          "No recognized cloud provider platform found in infrastructures.config.openshift.io/cluster.status.platform"⟩])) := by
  constructor
  · exact ⟨rfl, rfl, rfl, rfl, rfl, rfl, rfl, rfl, rfl, rfl, rfl, rfl, rfl⟩
  · intro s hs
    simp only [List.mem_cons, List.not_mem_nil, or_false, not_or] at hs
    obtain ⟨h0, h1, h2, h3, h4, h5, h6, h7, h8, h9, h10, h11, h12⟩ := hs
    exact GetPlatformName_default s h0 h1 h2 h3 h4 h5 h6 h7 h8 h9 h10 h11 h12

/-- C7 witness: the default branch of the resolver at a concrete
unrecognized platform value. -/
theorem GetPlatformName_table_witness :
    GetPlatformName "Metal3" =
      ("", [⟨true, "ObserveCloudProvidersFailed",
        "No recognized cloud provider platform found in infrastructures.config.openshift.io/cluster.status.platform"⟩]) :=
  GetPlatformName_table.2 "Metal3" (by decide)

/-! ## Branch characterization of the observer -/

theorem observeSync_hardError {c : CloudProviderObserver} {l : Listers} {e : UMap}
    {cp : String} {errs0 : List String} {pev : List Event} {s0 sns skey : String} {oc : UMap}
    (h : (observeSync c l e cp errs0 pev s0 sns skey oc).hardError = true) :
    (observeSync c l e cp errs0 pev s0 sns skey oc).ret =
      Pruned e c.cloudProviderConfigPath c.cloudProviderNamePath ∧
    (observeSync c l e cp errs0 pev s0 sns skey oc).errs ≠ [] := by
  revert h
  unfold observeSync
  cases hsync : l.syncConfigMap ⟨c.targetNamespaceName, "cloud-config"⟩
      (effSourceLoc sns (effSourceMap cp s0)) with
  | some e2 =>
    intro h
    exact ⟨rfl, by simp⟩
  | none =>
    by_cases hsm : effSourceMap cp s0 = ""
    · rw [if_pos hsm]
      intro h
      exact Bool.noConfusion h
    · rw [if_neg hsm]
      cases hset : setNestedField oc (.vStrings [cloudProviderConfFilePrefix ++ skey])
          c.cloudProviderConfigPath with
      | error e2 =>
        intro h
        exact ⟨rfl, by simp⟩
      | ok oc2 =>
        intro h
        exact Bool.noConfusion h

theorem observe_hardError_aux (c : CloudProviderObserver) (l : Listers) (e : UMap)
    (h : (ObserveCloudProviderNames c l e).hardError = true) :
    (ObserveCloudProviderNames c l e).ret =
      Pruned e c.cloudProviderConfigPath c.cloudProviderNamePath ∧
    (ObserveCloudProviderNames c l e).errs ≠ [] := by
  revert h
  unfold ObserveCloudProviderNames
  cases hinf : l.infrastructureGet with
  | notFound =>
    intro h
    exact Bool.noConfusion h
  | err e2 =>
    intro h
    exact ⟨rfl, by simp⟩
  | found infra =>
    cases hext : IsCloudProviderExternal l with
    | error e2 =>
      intro h
      exact ⟨rfl, by simp⟩
    | ok external =>
      cases hm : l.managedConfigMapGet with
      | err e2 =>
        intro h
        exact ⟨rfl, by simp⟩
      | found u =>
        intro h
        exact observeSync_hardError h
      | notFound =>
        intro h
        exact observeSync_hardError h

theorem observe_ret_isPruned (c : CloudProviderObserver) (l : Listers) (e : UMap) :
    ∃ X, (ObserveCloudProviderNames c l e).ret =
      Pruned X c.cloudProviderConfigPath c.cloudProviderNamePath := by
  unfold ObserveCloudProviderNames
  cases hinf : l.infrastructureGet with
  | notFound => exact ⟨[], rfl⟩
  | err e2 => exact ⟨e, rfl⟩
  | found infra =>
    dsimp only
    cases hext : IsCloudProviderExternal l with
    | error e2 => exact ⟨e, rfl⟩
    | ok external =>
      dsimp only
      cases hm : l.managedConfigMapGet with
      | err e2 => exact ⟨e, rfl⟩
      | found u =>
        dsimp only
        unfold observeSync
        cases hsync : l.syncConfigMap ⟨c.targetNamespaceName, "cloud-config"⟩
            (effSourceLoc machineSpecifiedConfigNamespace
              (effSourceMap (GetPlatformName infra.platform).1 machineSpecifiedConfig)) with
        | some e2 => exact ⟨e, rfl⟩
        | none =>
          by_cases hsm : effSourceMap (GetPlatformName infra.platform).1 machineSpecifiedConfig = ""
          · rw [if_pos hsm]
            exact ⟨_, rfl⟩
          · rw [if_neg hsm]
            cases hset : setNestedField
                (pnObserved external (GetPlatformName infra.platform).1 c.cloudProviderNamePath)
                (.vStrings [cloudProviderConfFilePrefix ++ "cloud.conf"])
                c.cloudProviderConfigPath with
            | error e2 => exact ⟨e, rfl⟩
            | ok oc2 => exact ⟨oc2, rfl⟩
      | notFound =>
        dsimp only
        unfold observeSync
        cases hsync : l.syncConfigMap ⟨c.targetNamespaceName, "cloud-config"⟩
            (effSourceLoc configNamespace
              (effSourceMap (GetPlatformName infra.platform).1 infra.cloudConfigName)) with
        | some e2 => exact ⟨e, rfl⟩
        | none =>
          by_cases hsm : effSourceMap (GetPlatformName infra.platform).1 infra.cloudConfigName = ""
          · rw [if_pos hsm]
            exact ⟨_, rfl⟩
          · rw [if_neg hsm]
            cases hset : setNestedField
                (pnObserved external (GetPlatformName infra.platform).1 c.cloudProviderNamePath)
                (.vStrings [cloudProviderConfFilePrefix ++ infra.cloudConfigKey])
                c.cloudProviderConfigPath with
            | error e2 => exact ⟨e, rfl⟩
            | ok oc2 => exact ⟨oc2, rfl⟩

/-! ## More fixtures -/

/-- Listers with no infrastructure resource. -/
def lNotFound : Listers := ⟨.notFound, .notFound, .ok false, .notFound, syncOk⟩

/-- Listers whose infrastructure lookup fails with a non-not-found error. -/
def lInfraErr : Listers := ⟨.err "infrastructure lookup failed", .notFound, .ok false, .notFound, syncOk⟩

/-- A prior configuration holding a key outside the two configured paths. -/
def ePrior : UMap := [("unrelated", .vStrings ["x"])]

/-! ## C1 -/

/-- C1 counterexample: on a hard error (infrastructure lookup failure) the
returned configuration is NOT the prior configuration unchanged — the
deferred pruning step drops the prior key that lies outside the two
configured key paths, while the error list is non-empty. -/
theorem observe_hardError_not_prior_unchanged :
    (ObserveCloudProviderNames cW lInfraErr ePrior).hardError = true ∧
    (ObserveCloudProviderNames cW lInfraErr ePrior).errs ≠ [] ∧
    (ObserveCloudProviderNames cW lInfraErr ePrior).ret ≠ ePrior := by
  decide

/-- C1 (amended): every invocation that ends in a hard error (infrastructure
lookup error other than not-found, external-provider check error,
non-not-found managed config-map lookup error, sync failure, or config-path
write failure) returns the prior configuration pruned to the two
caller-configured key paths, together with a non-empty error list. -/
theorem observe_hardError_returns_pruned_prior (c : CloudProviderObserver) (l : Listers)
    (e : UMap) (h : (ObserveCloudProviderNames c l e).hardError = true) :
    (ObserveCloudProviderNames c l e).ret =
      Pruned e c.cloudProviderConfigPath c.cloudProviderNamePath ∧
    (ObserveCloudProviderNames c l e).errs ≠ [] :=
  observe_hardError_aux c l e h

/-- C1 witness: the amended statement evaluated on the concrete
infrastructure-lookup-error fixture. -/
theorem observe_hardError_returns_pruned_prior_witness :
    (ObserveCloudProviderNames cW lInfraErr ePrior).ret =
      Pruned ePrior cW.cloudProviderConfigPath cW.cloudProviderNamePath ∧
    (ObserveCloudProviderNames cW lInfraErr ePrior).errs ≠ [] :=
  observe_hardError_returns_pruned_prior cW lInfraErr ePrior (by decide)

/-! ## C2 -/

/-- C2 counterexample: for an injected listers value that does not implement
the InfrastructureLister interface, the unchecked type assertion of line 58
panics (modelled as `none`), so the claim quantified over every injected
listers value fails. -/
theorem observe_generic_panic :
    ObserveCloudProviderNamesGeneric cW (.other "listersWithoutInfrastructure") [] = none := rfl

/-- C2 (amended): for every injected listers value that implements the
InfrastructureLister interface, every recorder, and every prior
configuration, the observer never panics: it always returns a configuration
map, and every hard-error path carries a non-empty error list. -/
theorem observe_generic_no_panic (c : CloudProviderObserver) (l : Listers) (e : UMap) :
    ∃ out, ObserveCloudProviderNamesGeneric c (.infra l) e = some out ∧
      (out.hardError = true → out.errs ≠ []) :=
  ⟨ObserveCloudProviderNames c l e, rfl, fun h => (observe_hardError_aux c l e h).2⟩

/-- C2 witness: the amended statement at a concrete listers value. -/
theorem observe_generic_no_panic_witness :
    ∃ out, ObserveCloudProviderNamesGeneric cW (.infra lNotFound) [] = some out ∧
      (out.hardError = true → out.errs ≠ []) :=
  observe_generic_no_panic cW lNotFound []

/-! ## C3 -/

/-- C3: on every return path, every key path that holds a value in the
returned configuration lies along one of the two caller-configured key
paths (it is a prefix of, or extends, the config-file path or the
provider-name path); all other keys are pruned away. -/
theorem observe_ret_only_configured_paths (c : CloudProviderObserver) (l : Listers) (e : UMap)
    (q : List String) (h : getNested (ObserveCloudProviderNames c l e).ret q ≠ none) :
    (q <+: c.cloudProviderConfigPath ∨ c.cloudProviderConfigPath <+: q) ∨
    (q <+: c.cloudProviderNamePath ∨ c.cloudProviderNamePath <+: q) := by
  obtain ⟨X, hX⟩ := observe_ret_isPruned c l e
  rw [hX] at h
  exact Pruned_comparable h

/-- C3 witness: the property at a concrete input whose prior configuration
holds an unrelated key, which is indeed pruned away. -/
theorem observe_ret_only_configured_paths_witness :
    ([] <+: cW.cloudProviderConfigPath ∨ cW.cloudProviderConfigPath <+: ([] : List String)) ∨
    ([] <+: cW.cloudProviderNamePath ∨ cW.cloudProviderNamePath <+: ([] : List String)) :=
  observe_ret_only_configured_paths cW lInfraErr ePrior [] (by decide)

/-! ## Lemmas on getStringsAt and the provider-name write -/

theorem getStringsAt_of_none {m : UMap} {q : List String} (h : getNested m q = none) :
    getStringsAt m q = none := by
  simp [getStringsAt, h]

theorem getStringsAt_of_map {m : UMap} {q : List String} {mm : UMap}
    (h : getNested m q = some (.vMap mm)) : getStringsAt m q = none := by
  simp [getStringsAt, h]

theorem getStringsAt_of_strings {m : UMap} {q : List String} {ss : List String}
    (h : getNested m q = some (.vStrings ss)) : getStringsAt m q = some ss := by
  simp [getStringsAt, h]

theorem getStringsAt_empty {q : List String} (h : q ≠ []) :
    getStringsAt ([] : UMap) q = none :=
  getStringsAt_of_none (getNested_empty q h)

theorem getStringsAt_nil_path (m : UMap) : getStringsAt m [] = none := by
  simp [getStringsAt, getNested_nil]

/-- A map holding a single string-slice value at path `p` holds no
string-slice value at any other path. -/
theorem getStringsAt_set_singleton_other {ss : List String} {p q : List String} {m : UMap}
    (hset : setNestedField [] (.vStrings ss) p = .ok m) (hq : q ≠ p) (hq0 : q ≠ []) :
    getStringsAt m q = none := by
  by_cases hc1 : q <+: p
  · obtain ⟨mm, hmm⟩ := setNestedField_ok_prefix_isMap hset hc1 hq
    exact getStringsAt_of_map hmm
  · by_cases hc2 : p <+: q
    · obtain ⟨t, rfl⟩ := hc2
      have ht : t ≠ [] := by
        intro hh
        subst hh
        simp at hq
      refine getStringsAt_of_none ?_
      rw [getNested_append, setNestedField_ok_getNested hset, getVO_some]
      cases t with
      | nil => exact absurd rfl ht
      | cons a b => rfl
    · refine getStringsAt_of_none ?_
      rw [setNestedField_ok_getNested_other hset hc2 hc1]
      exact getNested_empty q hq0

/-- The config written by the provider-name write holds no string slice at
the (distinct) config path. -/
theorem getStringsAt_pnObserved_config (ext : Bool) (cp : String) (np cfg : List String)
    (hne : cfg ≠ np) (h0 : cfg ≠ []) :
    getStringsAt (pnObserved ext cp np) cfg = none := by
  unfold pnObserved providerNameWrite
  cases ext with
  | true =>
    simp only [if_true]
    cases hset : setNestedField [] (.vStrings ["external"]) np with
    | ok m => exact getStringsAt_set_singleton_other hset hne h0
    | error e => exact getStringsAt_empty h0
  | false =>
    simp only [Bool.false_eq_true, if_false]
    by_cases hcp : cp = ""
    · rw [if_pos hcp]
      exact getStringsAt_empty h0
    · rw [if_neg hcp]
      cases hset : setNestedField [] (.vStrings [cp]) np with
      | ok m => exact getStringsAt_set_singleton_other hset hne h0
      | error e => exact getStringsAt_empty h0

theorem effSourceMap_not_valid {cp : String} (s0 : String)
    (h : validCloudProviders.contains cp = false) : effSourceMap cp s0 = "" := by
  unfold effSourceMap
  rw [if_neg]
  simpa using h

theorem effSourceMap_valid {cp : String} (s0 : String)
    (h : validCloudProviders.contains cp = true) : effSourceMap cp s0 = s0 := by
  unfold effSourceMap
  rw [if_pos h]

theorem effSourceLoc_empty (sns : String) : effSourceLoc sns "" = ⟨"", ""⟩ := rfl

theorem effSourceLoc_nonempty {s : String} (sns : String) (h : s ≠ "") :
    effSourceLoc sns s = ⟨sns, s⟩ := by
  simp [effSourceLoc, h]

/-! ## C4 -/

/-- C4: when the resolved in-tree provider is not one of aws, azure, gce,
openstack, vsphere, the config-map sync is issued with the empty source
location (remove/no-op) even when a source config-map of the otherwise
selected name exists, and on the non-error return no config-file path value
is present at the config path. -/
theorem observe_invalid_provider_no_source (c : CloudProviderObserver) (l : Listers)
    (e : UMap) (infra : Infrastructure) (ext : Bool)
    (hinf : l.infrastructureGet = .found infra)
    (hext : IsCloudProviderExternal l = .ok ext)
    (hm : l.managedConfigMapGet = .found () ∨ l.managedConfigMapGet = .notFound)
    (hcp : validCloudProviders.contains (GetPlatformName infra.platform).1 = false)
    (hpaths : c.cloudProviderConfigPath ≠ c.cloudProviderNamePath) :
    (ObserveCloudProviderNames c l e).syncs =
      [(⟨c.targetNamespaceName, "cloud-config"⟩, ⟨"", ""⟩)] ∧
    ((ObserveCloudProviderNames c l e).hardError = false →
      getStringsAt (ObserveCloudProviderNames c l e).ret c.cloudProviderConfigPath = none) := by
  have hobs : ∀ s0 sns skey,
      (observeSync c l e (GetPlatformName infra.platform).1
        (pnErrs ext (GetPlatformName infra.platform).1 c.cloudProviderNamePath)
        (GetPlatformName infra.platform).2 s0 sns skey
        (pnObserved ext (GetPlatformName infra.platform).1 c.cloudProviderNamePath)).syncs =
        [(⟨c.targetNamespaceName, "cloud-config"⟩, ⟨"", ""⟩)] ∧
      ((observeSync c l e (GetPlatformName infra.platform).1
        (pnErrs ext (GetPlatformName infra.platform).1 c.cloudProviderNamePath)
        (GetPlatformName infra.platform).2 s0 sns skey
        (pnObserved ext (GetPlatformName infra.platform).1 c.cloudProviderNamePath)).hardError = false →
        getStringsAt (observeSync c l e (GetPlatformName infra.platform).1
          (pnErrs ext (GetPlatformName infra.platform).1 c.cloudProviderNamePath)
          (GetPlatformName infra.platform).2 s0 sns skey
          (pnObserved ext (GetPlatformName infra.platform).1 c.cloudProviderNamePath)).ret
          c.cloudProviderConfigPath = none) := by
    intro s0 sns skey
    unfold observeSync
    rw [effSourceMap_not_valid s0 hcp, effSourceLoc_empty]
    cases hsync : l.syncConfigMap ⟨c.targetNamespaceName, "cloud-config"⟩ ⟨"", ""⟩ with
    | some e2 =>
      refine ⟨rfl, fun hh => ?_⟩
      exact Bool.noConfusion hh
    | none =>
      rw [if_pos rfl]
      refine ⟨rfl, fun _ => ?_⟩
      by_cases h0 : c.cloudProviderConfigPath = []
      · rw [h0]
        exact getStringsAt_nil_path _
      · have hB := @getNested_Pruned_first
          (pnObserved ext (GetPlatformName infra.platform).1 c.cloudProviderNamePath)
          c.cloudProviderConfigPath c.cloudProviderNamePath h0
        have hv := getStringsAt_pnObserved_config ext (GetPlatformName infra.platform).1
          c.cloudProviderNamePath c.cloudProviderConfigPath hpaths h0
        unfold getStringsAt at hv ⊢
        rw [hB]
        exact hv
  unfold ObserveCloudProviderNames
  rw [hinf]
  dsimp only
  rw [hext]
  dsimp only
  rcases hm with hm | hm <;> rw [hm] <;> dsimp only
  · exact hobs machineSpecifiedConfig machineSpecifiedConfigNamespace "cloud.conf"
  · exact hobs infra.cloudConfigName configNamespace infra.cloudConfigKey

/-- Listers for a platform with no in-tree provider where the managed
config-map nevertheless exists. -/
def lNonePlatform : Listers :=
  ⟨.found ⟨"None", "some-config", "some-key"⟩, .notFound, .ok false, .found (), syncOk⟩

/-- C4 witness: a `None`-platform cluster with an existing managed
config-map syncs the empty location and writes no config path. -/
theorem observe_invalid_provider_no_source_witness :
    (ObserveCloudProviderNames cW lNonePlatform []).syncs =
      [(⟨cW.targetNamespaceName, "cloud-config"⟩, ⟨"", ""⟩)] ∧
    ((ObserveCloudProviderNames cW lNonePlatform []).hardError = false →
      getStringsAt (ObserveCloudProviderNames cW lNonePlatform []).ret
        cW.cloudProviderConfigPath = none) :=
  observe_invalid_provider_no_source cW lNonePlatform [] ⟨"None", "some-config", "some-key"⟩
    false rfl rfl (Or.inl rfl) (by decide) (by decide)

/-- Writing the config-file path into the map produced by the provider-name
write succeeds whenever the name path does not sit strictly above the
config path. -/
theorem set_config_into_name_ok {ss : List String} {np cfg : List String} {obsm : UMap}
    (w : UValue) (hobs : setNestedField [] (.vStrings ss) np = .ok obsm)
    (h1 : ¬ np <+: cfg) (hcfg : cfg ≠ []) :
    ∃ oc2, setNestedField obsm w cfg = .ok oc2 := by
  refine setNestedField_ok_of_prefixes hcfg ?_
  intro q wq hq hne hget
  by_cases hq1 : q <+: np
  · by_cases hqe : q = np
    · subst hqe
      exact absurd hq h1
    · obtain ⟨mm, hmm⟩ := setNestedField_ok_prefix_isMap hobs hq1 hqe
      rw [hget] at hmm
      injection hmm with hmm
      exact ⟨mm, hmm⟩
  · by_cases hq2 : np <+: q
    · obtain ⟨t, rfl⟩ := hq2
      have ht : t ≠ [] := by
        intro hh
        subst hh
        simp at hq1
      rw [getNested_append, setNestedField_ok_getNested hobs, getVO_some] at hget
      cases t with
      | nil => exact absurd rfl ht
      | cons a b => simp [getV] at hget
    · rw [setNestedField_ok_getNested_other hobs hq2 hq1] at hget
      cases q with
      | nil => exact absurd List.nil_prefix hq1
      | cons a b =>
        rw [getNested_empty _ (by simp)] at hget
        exact Option.noConfusion hget

theorem pnObserved_external {cp : String} {np : List String} {m : UMap}
    (h : setNestedField [] (.vStrings ["external"]) np = .ok m) :
    pnObserved true cp np = m := by
  unfold pnObserved providerNameWrite
  rw [if_pos rfl, h]

/-! ## C8 -/

/-- C8 counterexample: on a platform with no in-tree provider the managed
config-map exists, yet the issued sync does not use it — the source is
cleared to the empty location by the allow-list restriction, so the managed
config-map does not win "regardless of platform type". -/
theorem observe_managed_not_always_win :
    lNonePlatform.managedConfigMapGet = .found () ∧
    (ObserveCloudProviderNames cW lNonePlatform []).syncs ≠
      [(⟨cW.targetNamespaceName, "cloud-config"⟩,
        ⟨machineSpecifiedConfigNamespace, machineSpecifiedConfig⟩)] ∧
    (ObserveCloudProviderNames cW lNonePlatform []).syncs =
      [(⟨cW.targetNamespaceName, "cloud-config"⟩, ⟨"", ""⟩)] := by
  decide

/-- C8 (amended): for every infrastructure whose resolved provider is in
the allow-list {aws, azure, gce, openstack, vsphere}: when the managed
config-map kube-cloud-config exists in openshift-config-managed, the sync
source is that managed config-map and on a fully successful run the config
path holds the file path ending in the overridden key cloud.conf; when the
managed lookup returns not-found and the infrastructure's cloud-config name
is non-empty, the default source (namespace openshift-config, the spec's
name) is used. -/
theorem observe_managed_configmap_wins (c : CloudProviderObserver) (l : Listers)
    (e : UMap) (infra : Infrastructure) (ext : Bool)
    (hinf : l.infrastructureGet = .found infra)
    (hext : IsCloudProviderExternal l = .ok ext)
    (hcp : validCloudProviders.contains (GetPlatformName infra.platform).1 = true) :
    (l.managedConfigMapGet = .found () →
      (ObserveCloudProviderNames c l e).syncs =
        [(⟨c.targetNamespaceName, "cloud-config"⟩,
          ⟨machineSpecifiedConfigNamespace, machineSpecifiedConfig⟩)] ∧
      ((ObserveCloudProviderNames c l e).hardError = false →
        getStringsAt (ObserveCloudProviderNames c l e).ret c.cloudProviderConfigPath =
          some [cloudProviderConfFilePrefix ++ "cloud.conf"])) ∧
    (l.managedConfigMapGet = .notFound → infra.cloudConfigName ≠ "" →
      (ObserveCloudProviderNames c l e).syncs =
        [(⟨c.targetNamespaceName, "cloud-config"⟩,
          ⟨configNamespace, infra.cloudConfigName⟩)]) := by
  unfold ObserveCloudProviderNames
  rw [hinf]
  dsimp only
  rw [hext]
  dsimp only
  constructor
  · intro hm
    rw [hm]
    dsimp only
    unfold observeSync
    rw [effSourceMap_valid _ hcp, effSourceLoc_nonempty _ (by decide)]
    cases hsync : l.syncConfigMap ⟨c.targetNamespaceName, "cloud-config"⟩
        ⟨machineSpecifiedConfigNamespace, machineSpecifiedConfig⟩ with
    | some e2 =>
      exact ⟨rfl, fun hh => Bool.noConfusion hh⟩
    | none =>
      rw [if_neg (by decide)]
      cases hset : setNestedField
          (pnObserved ext (GetPlatformName infra.platform).1 c.cloudProviderNamePath)
          (.vStrings [cloudProviderConfFilePrefix ++ "cloud.conf"])
          c.cloudProviderConfigPath with
      | error e2 =>
        exact ⟨rfl, fun hh => Bool.noConfusion hh⟩
      | ok oc2 =>
        refine ⟨rfl, fun _ => ?_⟩
        have hcfg : c.cloudProviderConfigPath ≠ [] := by
          intro hh
          rw [hh, setNestedField_nil] at hset
          exact Except.noConfusion hset
        have hB := @getNested_Pruned_first oc2 c.cloudProviderConfigPath
          c.cloudProviderNamePath hcfg
        unfold getStringsAt
        rw [hB, setNestedField_ok_getNested hset]
  · intro hm hname
    rw [hm]
    dsimp only
    unfold observeSync
    rw [effSourceMap_valid _ hcp, effSourceLoc_nonempty _ hname]
    cases hsync : l.syncConfigMap ⟨c.targetNamespaceName, "cloud-config"⟩
        ⟨configNamespace, infra.cloudConfigName⟩ with
    | some e2 => exact rfl
    | none =>
      rw [if_neg hname]
      cases hset : setNestedField
          (pnObserved ext (GetPlatformName infra.platform).1 c.cloudProviderNamePath)
          (.vStrings [cloudProviderConfFilePrefix ++ infra.cloudConfigKey])
          c.cloudProviderConfigPath with
      | error e2 => exact rfl
      | ok oc2 => exact rfl

/-- Listers for an AWS cluster where the managed config-map exists. -/
def lAWSManaged : Listers := ⟨.found infraAWS, .notFound, .ok false, .found (), syncOk⟩

/-- C8 witness: the amended statement on a concrete AWS cluster with the
managed config-map present. -/
theorem observe_managed_configmap_wins_witness :
    (lAWSManaged.managedConfigMapGet = .found () →
      (ObserveCloudProviderNames cW lAWSManaged []).syncs =
        [(⟨cW.targetNamespaceName, "cloud-config"⟩,
          ⟨machineSpecifiedConfigNamespace, machineSpecifiedConfig⟩)] ∧
      ((ObserveCloudProviderNames cW lAWSManaged []).hardError = false →
        getStringsAt (ObserveCloudProviderNames cW lAWSManaged []).ret cW.cloudProviderConfigPath =
          some [cloudProviderConfFilePrefix ++ "cloud.conf"])) ∧
    (lAWSManaged.managedConfigMapGet = .notFound → infraAWS.cloudConfigName ≠ "" →
      (ObserveCloudProviderNames cW lAWSManaged []).syncs =
        [(⟨cW.targetNamespaceName, "cloud-config"⟩,
          ⟨configNamespace, infraAWS.cloudConfigName⟩)]) :=
  observe_managed_configmap_wins cW lAWSManaged [] infraAWS false rfl rfl (by decide)

/-! ## C5 -/

/-- C5: under external cloud-provider mode the allow-list decision for
config-map syncing is still made on the in-tree platform name returned by
GetPlatformName, not on the literal "external" written to the output: for
an external-mode cluster whose platform resolves into the allow-list (and
with a source config-map available), the sync is issued with a non-empty
source location, and on a fully successful run the config path holds a
value while the provider name recorded at the name path is "external". -/
theorem observe_external_still_syncs (c : CloudProviderObserver) (l : Listers)
    (e : UMap) (infra : Infrastructure)
    (hinf : l.infrastructureGet = .found infra)
    (hfg : l.featureGateGet = .found ())
    (hev : l.evalExternal = .ok true)
    (hcp : validCloudProviders.contains (GetPlatformName infra.platform).1 = true)
    (hm : l.managedConfigMapGet = .found () ∨
      (l.managedConfigMapGet = .notFound ∧ infra.cloudConfigName ≠ ""))
    (h1 : ¬ c.cloudProviderNamePath <+: c.cloudProviderConfigPath)
    (h2 : ¬ c.cloudProviderConfigPath <+: c.cloudProviderNamePath) :
    (∃ src, (ObserveCloudProviderNames c l e).syncs =
        [(⟨c.targetNamespaceName, "cloud-config"⟩, src)] ∧ src ≠ ⟨"", ""⟩) ∧
    ((ObserveCloudProviderNames c l e).hardError = false →
      getStringsAt (ObserveCloudProviderNames c l e).ret c.cloudProviderConfigPath ≠ none ∧
      getStringsAt (ObserveCloudProviderNames c l e).ret c.cloudProviderNamePath =
        some ["external"]) := by
  have hext : IsCloudProviderExternal l = .ok true := by
    unfold IsCloudProviderExternal
    rw [hfg]
    dsimp only
    rw [hev]
  have hnp : c.cloudProviderNamePath ≠ [] := by
    intro hh
    exact h1 (hh ▸ List.nil_prefix)
  have hcfg : c.cloudProviderConfigPath ≠ [] := by
    intro hh
    exact h2 (hh ▸ List.nil_prefix)
  obtain ⟨obsm, hobs⟩ := setNestedField_empty_ok (.vStrings ["external"]) _ hnp
  have hpn : pnObserved true (GetPlatformName infra.platform).1 c.cloudProviderNamePath = obsm :=
    pnObserved_external hobs
  have hmain : ∀ s0 sns skey, s0 ≠ "" →
      (∃ src, (observeSync c l e (GetPlatformName infra.platform).1
          (pnErrs true (GetPlatformName infra.platform).1 c.cloudProviderNamePath)
          (GetPlatformName infra.platform).2 s0 sns skey
          (pnObserved true (GetPlatformName infra.platform).1 c.cloudProviderNamePath)).syncs =
          [(⟨c.targetNamespaceName, "cloud-config"⟩, src)] ∧ src ≠ ⟨"", ""⟩) ∧
      ((observeSync c l e (GetPlatformName infra.platform).1
          (pnErrs true (GetPlatformName infra.platform).1 c.cloudProviderNamePath)
          (GetPlatformName infra.platform).2 s0 sns skey
          (pnObserved true (GetPlatformName infra.platform).1 c.cloudProviderNamePath)).hardError = false →
        getStringsAt (observeSync c l e (GetPlatformName infra.platform).1
          (pnErrs true (GetPlatformName infra.platform).1 c.cloudProviderNamePath)
          (GetPlatformName infra.platform).2 s0 sns skey
          (pnObserved true (GetPlatformName infra.platform).1 c.cloudProviderNamePath)).ret
          c.cloudProviderConfigPath ≠ none ∧
        getStringsAt (observeSync c l e (GetPlatformName infra.platform).1
          (pnErrs true (GetPlatformName infra.platform).1 c.cloudProviderNamePath)
          (GetPlatformName infra.platform).2 s0 sns skey
          (pnObserved true (GetPlatformName infra.platform).1 c.cloudProviderNamePath)).ret
          c.cloudProviderNamePath = some ["external"]) := by
    intro s0 sns skey hs0
    unfold observeSync
    rw [effSourceMap_valid _ hcp, effSourceLoc_nonempty _ hs0, hpn]
    obtain ⟨oc2, hset2⟩ := set_config_into_name_ok
      (.vStrings [cloudProviderConfFilePrefix ++ skey]) hobs h1 hcfg
    cases hsync : l.syncConfigMap ⟨c.targetNamespaceName, "cloud-config"⟩ ⟨sns, s0⟩ with
    | some e2 =>
      refine ⟨⟨⟨sns, s0⟩, rfl, ?_⟩, fun hh => Bool.noConfusion hh⟩
      intro hh
      injection hh with hh1 hh2
      exact hs0 hh2
    | none =>
      rw [if_neg hs0, hset2]
      refine ⟨⟨⟨sns, s0⟩, rfl, ?_⟩, fun _ => ⟨?_, ?_⟩⟩
      · intro hh
        injection hh with hh1 hh2
        exact hs0 hh2
      · have hB := @getNested_Pruned_first oc2 c.cloudProviderConfigPath
          c.cloudProviderNamePath hcfg
        unfold getStringsAt
        rw [hB, setNestedField_ok_getNested hset2]
        simp
      · have hB := @getNested_Pruned_second oc2 c.cloudProviderConfigPath
          c.cloudProviderNamePath hnp
        unfold getStringsAt
        rw [hB, setNestedField_ok_getNested_other hset2 h2 h1,
          setNestedField_ok_getNested hobs]
  unfold ObserveCloudProviderNames
  rw [hinf]
  dsimp only
  rw [hext]
  dsimp only
  rcases hm with hm | ⟨hm, hname⟩ <;> rw [hm] <;> dsimp only
  · exact hmain machineSpecifiedConfig machineSpecifiedConfigNamespace "cloud.conf" (by decide)
  · exact hmain infra.cloudConfigName configNamespace infra.cloudConfigKey hname

/-- Listers for an AWS cluster in external cloud-provider mode. -/
def lAWSExternal : Listers := ⟨.found infraAWS, .found (), .ok true, .notFound, syncOk⟩

/-- C5 witness: the external-mode statement on a concrete AWS cluster. -/
theorem observe_external_still_syncs_witness :
    (∃ src, (ObserveCloudProviderNames cW lAWSExternal []).syncs =
        [(⟨cW.targetNamespaceName, "cloud-config"⟩, src)] ∧ src ≠ ⟨"", ""⟩) ∧
    ((ObserveCloudProviderNames cW lAWSExternal []).hardError = false →
      getStringsAt (ObserveCloudProviderNames cW lAWSExternal []).ret
        cW.cloudProviderConfigPath ≠ none ∧
      getStringsAt (ObserveCloudProviderNames cW lAWSExternal []).ret
        cW.cloudProviderNamePath = some ["external"]) :=
  observe_external_still_syncs cW lAWSExternal [] infraAWS rfl rfl rfl (by decide)
    (Or.inr ⟨rfl, by decide⟩) (by decide) (by decide)

/-! ## C10 -/

/-- The configuration holds, at the provider-name path, both the external
marker and one of the in-tree provider names. -/
def hasBothMarkers (m : UMap) (namePath : List String) : Bool :=
  match getStringsAt m namePath with
  | some ss => ss.contains "external" && validCloudProviders.any (fun p => ss.contains p)
  | none => false

theorem hasBoth_none {m : UMap} {np : List String} (h : getStringsAt m np = none) :
    hasBothMarkers m np = false := by
  unfold hasBothMarkers
  rw [h]

theorem hasBoth_congr {m m2 : UMap} {np : List String}
    (h : getStringsAt m np = getStringsAt m2 np) :
    hasBothMarkers m np = hasBothMarkers m2 np := by
  unfold hasBothMarkers
  rw [h]

theorem hasBoth_nil_path (m : UMap) : hasBothMarkers m [] = false :=
  hasBoth_none (getStringsAt_nil_path m)

theorem hasBoth_singleton {m : UMap} {np : List String} {s : String}
    (h : getStringsAt m np = some [s]) : hasBothMarkers m np = false := by
  unfold hasBothMarkers
  rw [h]
  dsimp only
  by_cases hs : s = "external"
  · subst hs
    decide
  · have hc : ([s].contains "external") = false := by
      simp [Ne.symm hs]
    rw [hc, Bool.false_and]

/-- The provider-name write leaves either nothing or a single string at the
name path. -/
theorem getStringsAt_pnObserved_name (ext : Bool) (cp : String) (np : List String) :
    getStringsAt (pnObserved ext cp np) np = none ∨
    ∃ s, getStringsAt (pnObserved ext cp np) np = some [s] := by
  have hempty : getStringsAt ([] : UMap) np = none := by
    cases np with
    | nil => exact getStringsAt_nil_path []
    | cons a b => exact getStringsAt_empty (by simp)
  unfold pnObserved providerNameWrite
  cases ext with
  | true =>
    rw [if_pos rfl]
    cases hset : setNestedField [] (.vStrings ["external"]) np with
    | ok m =>
      exact Or.inr ⟨"external", getStringsAt_of_strings (setNestedField_ok_getNested hset)⟩
    | error e => exact Or.inl hempty
  | false =>
    rw [if_neg (by simp)]
    by_cases hcp : cp = ""
    · rw [if_pos hcp]
      exact Or.inl hempty
    · rw [if_neg hcp]
      cases hset : setNestedField [] (.vStrings [cp]) np with
      | ok m =>
        exact Or.inr ⟨cp, getStringsAt_of_strings (setNestedField_ok_getNested hset)⟩
      | error e => exact Or.inl hempty

theorem hasBoth_Pruned_fallback {e : UMap} {cfg np : List String}
    (hprior : hasBothMarkers e np = false) :
    hasBothMarkers (Pruned e cfg np) np = false := by
  by_cases hnp : np = []
  · subst hnp
    exact hasBoth_nil_path _
  · rw [hasBoth_congr (show getStringsAt (Pruned e cfg np) np = getStringsAt e np by
      unfold getStringsAt
      rw [getNested_Pruned_second hnp])]
    exact hprior

theorem hasBoth_observeSync {c : CloudProviderObserver} {l : Listers} {e : UMap}
    {cp : String} {errs0 : List String} {pev : List Event} {s0 sns skey : String} {oc : UMap}
    (hprior : hasBothMarkers e c.cloudProviderNamePath = false)
    (hoc : getStringsAt oc c.cloudProviderNamePath = none ∨
      ∃ s, getStringsAt oc c.cloudProviderNamePath = some [s]) :
    hasBothMarkers (observeSync c l e cp errs0 pev s0 sns skey oc).ret
      c.cloudProviderNamePath = false := by
  have hocBoth : hasBothMarkers (Pruned oc c.cloudProviderConfigPath c.cloudProviderNamePath)
      c.cloudProviderNamePath = false := by
    by_cases hnp : c.cloudProviderNamePath = []
    · rw [hnp]
      exact hasBoth_nil_path _
    · rw [hasBoth_congr (show getStringsAt _ _ = getStringsAt oc c.cloudProviderNamePath by
        unfold getStringsAt
        rw [getNested_Pruned_second hnp])]
      rcases hoc with hoc | ⟨s, hoc⟩
      · exact hasBoth_none hoc
      · exact hasBoth_singleton hoc
  unfold observeSync
  cases hsync : l.syncConfigMap ⟨c.targetNamespaceName, "cloud-config"⟩
      (effSourceLoc sns (effSourceMap cp s0)) with
  | some e2 => exact hasBoth_Pruned_fallback hprior
  | none =>
    by_cases hsm : effSourceMap cp s0 = ""
    · rw [if_pos hsm]
      exact hocBoth
    · rw [if_neg hsm]
      cases hset : setNestedField oc (.vStrings [cloudProviderConfFilePrefix ++ skey])
          c.cloudProviderConfigPath with
      | error e2 => exact hasBoth_Pruned_fallback hprior
      | ok oc2 =>
        by_cases hnp : c.cloudProviderNamePath = []
        · rw [hnp]
          exact hasBoth_nil_path _
        · rw [hasBoth_congr (show getStringsAt _ _ = getStringsAt oc2 c.cloudProviderNamePath by
            unfold getStringsAt
            rw [getNested_Pruned_second hnp])]
          by_cases hqe : c.cloudProviderConfigPath = c.cloudProviderNamePath
          · rw [← hqe]
            exact hasBoth_singleton (getStringsAt_of_strings (setNestedField_ok_getNested hset))
          · by_cases hc1 : c.cloudProviderConfigPath <+: c.cloudProviderNamePath
            · obtain ⟨t, ht⟩ := hc1
              have htne : t ≠ [] := by
                intro hh
                subst hh
                rw [List.append_nil] at ht
                exact hqe ht
              refine hasBoth_none ?_
              refine getStringsAt_of_none ?_
              rw [← ht, getNested_append, setNestedField_ok_getNested hset, getVO_some]
              cases t with
              | nil => exact absurd rfl htne
              | cons a b => rfl
            · by_cases hc2 : c.cloudProviderNamePath <+: c.cloudProviderConfigPath
              · obtain ⟨mm, hmm⟩ := setNestedField_ok_prefix_isMap hset hc2
                  (fun hh => hqe hh.symm)
                exact hasBoth_none (getStringsAt_of_map hmm)
              · rw [hasBoth_congr (show getStringsAt oc2 _ = getStringsAt oc _ by
                  unfold getStringsAt
                  rw [setNestedField_ok_getNested_other hset hc1 hc2])]
                rcases hoc with hoc | ⟨s, hoc⟩
                · exact hasBoth_none hoc
                · exact hasBoth_singleton hoc

/-- A prior configuration already holding both markers at the name path. -/
def eBoth : UMap :=
  [("apiServerArguments", .vMap [("cloud-provider", .vStrings ["external", "aws"])])]

/-- C10 counterexample: when the infrastructure lookup fails hard, the
function returns the (pruned) prior configuration, so a prior that already
holds both the external marker and an in-tree name at the provider-name
path is returned with both markers present. -/
theorem observe_both_markers_possible :
    hasBothMarkers (ObserveCloudProviderNames cW lInfraErr eBoth).ret
      cW.cloudProviderNamePath = true := by
  decide

/-- C10 (amended): provided the prior configuration does not already hold
both the external marker and an in-tree provider name at the provider-name
path, the returned configuration never holds both simultaneously: the
observer itself only ever writes a single-element value there. -/
theorem observe_never_both_markers (c : CloudProviderObserver) (l : Listers) (e : UMap)
    (hprior : hasBothMarkers e c.cloudProviderNamePath = false) :
    hasBothMarkers (ObserveCloudProviderNames c l e).ret c.cloudProviderNamePath = false := by
  unfold ObserveCloudProviderNames
  cases hinf : l.infrastructureGet with
  | notFound =>
    dsimp only
    rw [Pruned_empty_src]
    by_cases hnp : c.cloudProviderNamePath = []
    · rw [hnp]
      exact hasBoth_nil_path _
    · refine hasBoth_none ?_
      cases hh : c.cloudProviderNamePath with
      | nil => exact absurd hh hnp
      | cons a b => exact getStringsAt_empty (by simp)
  | err e2 => exact hasBoth_Pruned_fallback hprior
  | found infra =>
    dsimp only
    cases hext : IsCloudProviderExternal l with
    | error e2 => exact hasBoth_Pruned_fallback hprior
    | ok external =>
      dsimp only
      cases hm : l.managedConfigMapGet with
      | err e2 => exact hasBoth_Pruned_fallback hprior
      | found u =>
        exact hasBoth_observeSync hprior
          (getStringsAt_pnObserved_name external (GetPlatformName infra.platform).1
            c.cloudProviderNamePath)
      | notFound =>
        exact hasBoth_observeSync hprior
          (getStringsAt_pnObserved_name external (GetPlatformName infra.platform).1
            c.cloudProviderNamePath)

/-- C10 witness: the amended statement at a concrete AWS input with an
empty prior configuration. -/
theorem observe_never_both_markers_witness :
    hasBothMarkers (ObserveCloudProviderNames cW lAWSManaged []).ret
      cW.cloudProviderNamePath = false :=
  observe_never_both_markers cW lAWSManaged [] (by decide)

/-! ## C9 -/

theorem observeSync_eq_syncErr {c : CloudProviderObserver} {l : Listers} {e : UMap}
    {cp : String} {errs0 : List String} {pev : List Event} {s0 sns skey : String} {oc : UMap}
    {e2 : String}
    (hsync : l.syncConfigMap ⟨c.targetNamespaceName, "cloud-config"⟩
      (effSourceLoc sns (effSourceMap cp s0)) = some e2) :
    observeSync c l e cp errs0 pev s0 sns skey oc =
      ⟨Pruned e c.cloudProviderConfigPath c.cloudProviderNamePath, errs0 ++ [e2], pev,
        [(⟨c.targetNamespaceName, "cloud-config"⟩,
          effSourceLoc sns (effSourceMap cp s0))], true⟩ := by
  unfold observeSync
  rw [hsync]

theorem observeSync_eq_noSource {c : CloudProviderObserver} {l : Listers} {e : UMap}
    {cp : String} {errs0 : List String} {pev : List Event} {s0 sns skey : String} {oc : UMap}
    (hsync : l.syncConfigMap ⟨c.targetNamespaceName, "cloud-config"⟩
      (effSourceLoc sns (effSourceMap cp s0)) = none)
    (hsm : effSourceMap cp s0 = "") :
    observeSync c l e cp errs0 pev s0 sns skey oc =
      ⟨Pruned oc c.cloudProviderConfigPath c.cloudProviderNamePath, errs0, pev,
        [(⟨c.targetNamespaceName, "cloud-config"⟩, ⟨"", ""⟩)], false⟩ := by
  unfold observeSync
  rw [hsync, if_pos hsm]

theorem observeSync_eq_setErr {c : CloudProviderObserver} {l : Listers} {e : UMap}
    {cp : String} {errs0 : List String} {pev : List Event} {s0 sns skey : String} {oc : UMap}
    {e2 : String}
    (hsync : l.syncConfigMap ⟨c.targetNamespaceName, "cloud-config"⟩
      (effSourceLoc sns (effSourceMap cp s0)) = none)
    (hsm : ¬ effSourceMap cp s0 = "")
    (hset : setNestedField oc (.vStrings [cloudProviderConfFilePrefix ++ skey])
      c.cloudProviderConfigPath = .error e2) :
    observeSync c l e cp errs0 pev s0 sns skey oc =
      ⟨Pruned e c.cloudProviderConfigPath c.cloudProviderNamePath, errs0 ++ [e2],
        pev ++ [⟨true, "ObserveCloudProviderNames", "Failed setting cloud-config : " ++ e2⟩],
        [(⟨c.targetNamespaceName, "cloud-config"⟩,
          effSourceLoc sns (effSourceMap cp s0))], true⟩ := by
  unfold observeSync
  rw [hsync, if_neg hsm, hset]

theorem observeSync_eq_ok {c : CloudProviderObserver} {l : Listers} {e : UMap}
    {cp : String} {errs0 : List String} {pev : List Event} {s0 sns skey : String} {oc : UMap}
    {oc2 : UMap}
    (hsync : l.syncConfigMap ⟨c.targetNamespaceName, "cloud-config"⟩
      (effSourceLoc sns (effSourceMap cp s0)) = none)
    (hsm : ¬ effSourceMap cp s0 = "")
    (hset : setNestedField oc (.vStrings [cloudProviderConfFilePrefix ++ skey])
      c.cloudProviderConfigPath = .ok oc2) :
    observeSync c l e cp errs0 pev s0 sns skey oc =
      ⟨Pruned oc2 c.cloudProviderConfigPath c.cloudProviderNamePath,
        readErrs errs0 e c.cloudProviderConfigPath,
        pev ++ changeEvents e c.cloudProviderConfigPath (cloudProviderConfFilePrefix ++ skey),
        [(⟨c.targetNamespaceName, "cloud-config"⟩,
          effSourceLoc sns (effSourceMap cp s0))], false⟩ := by
  unfold observeSync
  rw [hsync, if_neg hsm, hset]

theorem observeSync_idem {c : CloudProviderObserver} {l : Listers} {e : UMap}
    {cp : String} {errs0 : List String} {pev : List Event} {s0 sns skey : String} {oc : UMap}
    (hpev : ∀ ev ∈ pev, ev.reason ≠ "ObserveCloudProviderNamesChanges") :
    (observeSync c l (observeSync c l e cp errs0 pev s0 sns skey oc).ret
        cp errs0 pev s0 sns skey oc).ret =
      (observeSync c l e cp errs0 pev s0 sns skey oc).ret ∧
    ∀ ev ∈ (observeSync c l (observeSync c l e cp errs0 pev s0 sns skey oc).ret
        cp errs0 pev s0 sns skey oc).events,
      ev.reason ≠ "ObserveCloudProviderNamesChanges" := by
  cases hsync : l.syncConfigMap ⟨c.targetNamespaceName, "cloud-config"⟩
      (effSourceLoc sns (effSourceMap cp s0)) with
  | some e2 =>
    simp only [observeSync_eq_syncErr hsync]
    exact ⟨Pruned_idem e _ _, hpev⟩
  | none =>
    by_cases hsm : effSourceMap cp s0 = ""
    · simp only [observeSync_eq_noSource hsync hsm]
      exact ⟨trivial, hpev⟩
    · cases hset : setNestedField oc (.vStrings [cloudProviderConfFilePrefix ++ skey])
          c.cloudProviderConfigPath with
      | error e2 =>
        simp only [observeSync_eq_setErr hsync hsm hset]
        refine ⟨Pruned_idem e _ _, fun ev hev => ?_⟩
        rcases List.mem_append.1 hev with hev | hev
        · exact hpev ev hev
        · rw [List.mem_singleton] at hev
          subst hev
          exact (by decide :
            ("ObserveCloudProviderNames" : String) ≠ "ObserveCloudProviderNamesChanges")
      | ok oc2 =>
        simp only [observeSync_eq_ok hsync hsm hset]
        have hcfg : c.cloudProviderConfigPath ≠ [] := by
          intro hh
          rw [hh, setNestedField_nil] at hset
          exact Except.noConfusion hset
        have hch : changeEvents (Pruned oc2 c.cloudProviderConfigPath c.cloudProviderNamePath)
            c.cloudProviderConfigPath (cloudProviderConfFilePrefix ++ skey) = [] := by
          unfold changeEvents
          rw [nestedStringSlice_of_getNested (by
            rw [getNested_Pruned_first hcfg]
            exact setNestedField_ok_getNested hset)]
          dsimp only
          rw [if_pos rfl]
        rw [hch, List.append_nil]
        exact ⟨trivial, hpev⟩

/-- C9: idempotence — for a fixed external resource state, calling the
observer again with the first call's output as the prior configuration
returns an identical configuration, and the second call emits no
change-notification event for the config-file path. -/
theorem observe_idempotent (c : CloudProviderObserver) (l : Listers) (e : UMap) :
    (ObserveCloudProviderNames c l (ObserveCloudProviderNames c l e).ret).ret =
      (ObserveCloudProviderNames c l e).ret ∧
    ∀ ev ∈ (ObserveCloudProviderNames c l (ObserveCloudProviderNames c l e).ret).events,
      ev.reason ≠ "ObserveCloudProviderNamesChanges" := by
  unfold ObserveCloudProviderNames
  cases hinf : l.infrastructureGet with
  | notFound =>
    dsimp only
    refine ⟨rfl, fun ev hev => ?_⟩
    rw [List.mem_singleton] at hev
    subst hev
    decide
  | err e2 =>
    dsimp only
    exact ⟨Pruned_idem e _ _, fun ev hev => absurd hev (List.not_mem_nil ev)⟩
  | found infra =>
    dsimp only
    cases hext : IsCloudProviderExternal l with
    | error e2 =>
      dsimp only
      refine ⟨Pruned_idem e _ _, fun ev hev => ?_⟩
      rw [List.mem_singleton] at hev
      subst hev
      exact (by decide :
        ("ObserveCloudProviderNames" : String) ≠ "ObserveCloudProviderNamesChanges")
    | ok external =>
      dsimp only
      have hpev : ∀ ev ∈ (GetPlatformName infra.platform).2,
          ev.reason ≠ "ObserveCloudProviderNamesChanges" := by
        intro ev hev
        rw [GetPlatformName_reason infra.platform ev hev]
        decide
      cases hm : l.managedConfigMapGet with
      | err e2 =>
        dsimp only
        exact ⟨Pruned_idem e _ _, hpev⟩
      | found u =>
        dsimp only
        exact observeSync_idem hpev
      | notFound =>
        dsimp only
        exact observeSync_idem hpev

/-- C9 witness: idempotence evaluated at a concrete AWS input. -/
theorem observe_idempotent_witness :
    (ObserveCloudProviderNames cW lAWSManaged
        (ObserveCloudProviderNames cW lAWSManaged []).ret).ret =
      (ObserveCloudProviderNames cW lAWSManaged []).ret ∧
    ∀ ev ∈ (ObserveCloudProviderNames cW lAWSManaged
        (ObserveCloudProviderNames cW lAWSManaged []).ret).events,
      ev.reason ≠ "ObserveCloudProviderNamesChanges" :=
  observe_idempotent cW lAWSManaged []

end CloudProviderObserve
